import Mathlib

/-!
Verification of the Mira control-plane core (`src/control-plane/app`):
the in-memory `State` with its JSON-path patch engine (`core/state.py`)
and the command arbiter (`core/arbiter.py`).

The embedding is shallow: Python values flowing through payloads, state
fields and patch values are modelled by the JSON-like type `Value`; the
wall clock read by `datetime.utcnow().isoformat()` is passed in
explicitly as a `String`; Python exceptions (`TypeError`) are modelled
with `Except String`; the Redis `publish_state` calls and the SQLite
`persist_event` calls performed by the arbiter are recorded as lists in
the arbiter's result.
-/

deriving instance DecidableEq for Except

namespace Mira

/-- A JSON-like Python value (payload entries, state fields, patch values). -/
inductive Value where
  | null
  | bool (b : Bool)
  | int (n : Int)
  | str (s : String)
  | list (xs : List Value)
  | obj (kvs : List (String × Value))
deriving Repr, Inhabited

/-- Boolean equality on `Value`, mirroring Python `==` on JSON-like data. -/
def Value.beq : Value → Value → Bool
  | .null, .null => true
  | .bool a, .bool b => a == b
  | .int a, .int b => a == b
  | .str a, .str b => a == b
  | .list xs, .list ys => go xs ys
  | .obj xs, .obj ys => goKV xs ys
  | _, _ => false
where
  go : List Value → List Value → Bool
    | [], [] => true
    | a :: as_, b :: bs => Value.beq a b && go as_ bs
    | _, _ => false
  goKV : List (String × Value) → List (String × Value) → Bool
    | [], [] => true
    | (k1, v1) :: as_, (k2, v2) :: bs => k1 == k2 && Value.beq v1 v2 && goKV as_ bs
    | _, _ => false

theorem Value.beq_iff : ∀ a b : Value, (Value.beq a b = true ↔ a = b)
  | .null, .null => by simp [Value.beq]
  | .bool a, .bool b => by simp [Value.beq]
  | .int a, .int b => by simp [Value.beq]
  | .str a, .str b => by simp [Value.beq]
  | .list xs, .list ys => by
      simp only [Value.beq, Value.list.injEq]
      exact go xs ys
  | .obj xs, .obj ys => by
      simp only [Value.beq, Value.obj.injEq]
      exact goKV xs ys
  | .null, .bool _ | .null, .int _ | .null, .str _ | .null, .list _ | .null, .obj _
  | .bool _, .null | .bool _, .int _ | .bool _, .str _ | .bool _, .list _ | .bool _, .obj _
  | .int _, .null | .int _, .bool _ | .int _, .str _ | .int _, .list _ | .int _, .obj _
  | .str _, .null | .str _, .bool _ | .str _, .int _ | .str _, .list _ | .str _, .obj _
  | .list _, .null | .list _, .bool _ | .list _, .int _ | .list _, .str _ | .list _, .obj _
  | .obj _, .null | .obj _, .bool _ | .obj _, .int _ | .obj _, .str _ | .obj _, .list _ => by
      simp [Value.beq]
where
  go : ∀ xs ys : List Value, (Value.beq.go xs ys = true ↔ xs = ys)
    | [], [] => by simp [Value.beq.go]
    | a :: as_, b :: bs => by
        simp only [Value.beq.go, Bool.and_eq_true, List.cons.injEq]
        exact and_congr (Value.beq_iff a b) (go as_ bs)
    | [], _ :: _ => by simp [Value.beq.go]
    | _ :: _, [] => by simp [Value.beq.go]
  goKV : ∀ xs ys : List (String × Value), (Value.beq.goKV xs ys = true ↔ xs = ys)
    | [], [] => by simp [Value.beq.goKV]
    | (k1, v1) :: as_, (k2, v2) :: bs => by
        simp only [Value.beq.goKV, Bool.and_eq_true, List.cons.injEq, Prod.mk.injEq,
          beq_iff_eq]
        exact and_congr (and_congr Iff.rfl (Value.beq_iff v1 v2)) (goKV as_ bs)
    | [], _ :: _ => by simp [Value.beq.goKV]
    | _ :: _, [] => by simp [Value.beq.goKV]

instance : DecidableEq Value := fun a b => decidable_of_iff _ (Value.beq_iff a b)

/-- Is the value a Python list (`isinstance(value, list)`)? -/
def Value.isList : Value → Bool
  | .list _ => true
  | _ => false

/-- The characters of a string literal (segments are handled as `List Char`). -/
def chars (s : String) : List Char := s.data

/-- Python `str.strip("/")`: remove all leading and trailing slashes. -/
def stripSlashes (cs : List Char) : List Char :=
  ((cs.dropWhile (fun c => c = '/')).reverse.dropWhile (fun c => c = '/')).reverse

/-- Python `str.split("/")`: split on every slash, keeping empty segments
between consecutive slashes; the empty string yields one empty segment. -/
def splitSlashes : List Char → List (List Char)
  | [] => [[]]
  | c :: rest =>
    let r := splitSlashes rest
    if c = '/' then [] :: r
    else (c :: r.headD []) :: r.tail

/-- `parts = path.strip("/").split("/")` from `State.apply_patch`. -/
def pathParts (path : String) : List (List Char) :=
  splitSlashes (stripSlashes path.data)

/-- The decimal-digit value of a character (Unicode category Nd), which
is what Python `int()` accepts. The table lists the ranges this
development exercises — ASCII `0-9` and the Arabic-Indic digits
`U+0660-U+0669` — and is exact on the ASCII plane (the only ASCII Nd
digits are `0-9`); theorems that quantify over arbitrary index segments
therefore carry an ASCII hypothesis (`asciiSeg`). -/
def charDecimalVal (c : Char) : Option Nat :=
  if 48 ≤ c.toNat ∧ c.toNat ≤ 57 then some (c.toNat - 48)
  else if 0x660 ≤ c.toNat ∧ c.toNat ≤ 0x669 then some (c.toNat - 0x660)
  else none

/-- Python `str.isdigit()` on one character: true for Numeric_Type
Decimal or Digit. Beyond the decimal digits of `charDecimalVal` the
table lists the Digit-typed (non-decimal) code points this development
exercises — the superscript and subscript digits — on which `int()`
raises `ValueError`. Exact on the ASCII plane (no ASCII character is
Digit-typed without being decimal); see `asciiSeg`. -/
def pyCharIsDigit (c : Char) : Bool :=
  (charDecimalVal c).isSome ||
    decide (c.toNat = 0xB9 ∨ c.toNat = 0xB2 ∨ c.toNat = 0xB3 ∨ c.toNat = 0x2070 ∨
      (0x2074 ≤ c.toNat ∧ c.toNat ≤ 0x2079) ∨ (0x2080 ≤ c.toNat ∧ c.toNat ≤ 0x2089))

/-- Python `str.isdigit()`: nonempty and all characters digit-typed. -/
def pyIsDigit (cs : List Char) : Bool :=
  !cs.isEmpty && cs.all pyCharIsDigit

/-- The base-10 value of a string of ASCII decimal digits (used in
statements about in-scope, ASCII index segments). -/
def digitsToNat (cs : List Char) : Nat :=
  cs.foldl (fun n c => n * 10 + (c.toNat - 48)) 0

/-- Python `int(s)` on a string that passed `isdigit()`: succeeds with
the base-10 value iff every character is a decimal (Nd) digit, and
raises `ValueError` otherwise (e.g. on the superscript `²`, which is
digit-typed but not decimal). -/
def pyInt (cs : List Char) : Except String Nat :=
  go cs 0
where
  go : List Char → Nat → Except String Nat
    | [], n => .ok n
    | c :: rest, n =>
        match charDecimalVal c with
        | some d => go rest (n * 10 + d)
        | none => .error "ValueError: invalid literal for int() with base 10"

/-- Is every character ASCII? On ASCII segments the digit machinery of
the embedding (`pyIsDigit`, `pyInt`, `digitsToNat`) coincides exactly
with CPython's. -/
def asciiSeg (cs : List Char) : Bool :=
  cs.all (fun c => c.toNat < 128)

/-- Is `needle` a contiguous substring of `hay` (Python `a in b` on strings)? -/
def listInfixOf (needle hay : List Char) : Bool :=
  needle.isPrefixOf hay ||
    match hay with
    | [] => false
    | _ :: t => listInfixOf needle t

/-- Python `key in container` for a string key: key test on dicts, `==`
membership on lists, substring test on strings, `TypeError` otherwise. -/
def pyInStr (key : List Char) (container : Value) : Except String Bool :=
  match container with
  | .obj kvs => .ok (kvs.any (fun kv => kv.1.data = key))
  | .list xs =>
      .ok (xs.any (fun v => match v with | .str t => t.data = key | _ => false))
  | .str s2 => .ok (listInfixOf key s2.data)
  | _ => .error "TypeError: argument is not iterable"

/-- Python `container[key] = v` for a string key: in-place update or append
on dicts (insertion order preserved), `TypeError` on anything else. -/
def pySetItem (container : Value) (key : List Char) (v : Value) : Except String Value :=
  match container with
  | .obj kvs =>
      if kvs.any (fun kv => kv.1.data = key) then
        .ok (.obj (kvs.map (fun kv => if kv.1.data = key then (kv.1, v) else kv)))
      else .ok (.obj (kvs ++ [(⟨key⟩, v)]))
  | _ => .error "TypeError: object does not support item assignment"

/-- The in-memory state of `core/state.py` (class `State`): the legacy
fields plus the Phase A and B UIState fields. Every field holds a `Value`
because `apply_patch`, like Python `setattr`, can store any value in any
field. The default `State()` is `State.initial`. -/
structure State where
  mode : Value
  todos : Value
  mic_enabled : Value
  cam_enabled : Value
  last_gesture : Value
  last_updated : Value
  ui_mode : Value
  app_route : Value
  focus_path : Value
  gn_armed : Value
  debug_enabled : Value
  hud : Value
deriving DecidableEq, Repr

/-- `State.__init__`: the documented defaults, with `last_updated` set to
the current wall clock reading `now`. -/
def State.initial (now : String) : State where
  mode := .str "idle"
  todos := .list []
  mic_enabled := .bool false
  cam_enabled := .bool false
  last_gesture := .str "idle"
  last_updated := .str now
  ui_mode := .str "public"
  app_route := .str "home"
  focus_path := .list []
  gn_armed := .bool false
  debug_enabled := .bool false
  hud := .obj [("micOn", .bool false), ("camOn", .bool false),
               ("wsConnected", .bool false), ("wake", .bool false)]

/-- The data field of `State` bound to `name`, if any — the 12 slots of
the state tree. Python `getattr` also resolves methods and object
special attributes; those are never lists or dicts, so wherever the
source guards a `getattr` result with `isinstance(..., list)` or
`isinstance(..., dict)` this data-field view is exact (with the single
exception of `__dict__`, whose value is a dict — see `plainSeg`). -/
def State.getFieldP (s : State) (name : List Char) : Option Value :=
  if name = chars "mode" then some s.mode
  else if name = chars "todos" then some s.todos
  else if name = chars "mic_enabled" then some s.mic_enabled
  else if name = chars "cam_enabled" then some s.cam_enabled
  else if name = chars "last_gesture" then some s.last_gesture
  else if name = chars "last_updated" then some s.last_updated
  else if name = chars "ui_mode" then some s.ui_mode
  else if name = chars "app_route" then some s.app_route
  else if name = chars "focus_path" then some s.focus_path
  else if name = chars "gn_armed" then some s.gn_armed
  else if name = chars "debug_enabled" then some s.debug_enabled
  else if name = chars "hud" then some s.hud
  else none

/-- Assignment to a data field of `State`; names that are not data
fields leave the tree unchanged (see `State.pySetAttr` for the full
`setattr` behaviour on the other attribute names). -/
def State.setFieldP (s : State) (name : List Char) (v : Value) : State :=
  if name = chars "mode" then { s with mode := v }
  else if name = chars "todos" then { s with todos := v }
  else if name = chars "mic_enabled" then { s with mic_enabled := v }
  else if name = chars "cam_enabled" then { s with cam_enabled := v }
  else if name = chars "last_gesture" then { s with last_gesture := v }
  else if name = chars "last_updated" then { s with last_updated := v }
  else if name = chars "ui_mode" then { s with ui_mode := v }
  else if name = chars "app_route" then { s with app_route := v }
  else if name = chars "focus_path" then { s with focus_path := v }
  else if name = chars "gn_armed" then { s with gn_armed := v }
  else if name = chars "debug_enabled" then { s with debug_enabled := v }
  else if name = chars "hud" then { s with hud := v }
  else s

/-- Python `d[k] = v` keyed by a path segment. -/
def dictSetP (kvs : List (String × Value)) (key : List Char) (v : Value) :
    List (String × Value) :=
  if kvs.any (fun kv => kv.1.data = key) then
    kvs.map (fun kv => if kv.1.data = key then (kv.1, v) else kv)
  else kvs ++ [(⟨key⟩, v)]

/-- Python `hasattr(self, name)` on a `State` instance: true for the 12
data fields, for the two methods `to_dict` and `apply_patch`, and for
the object special attributes. Of the latter the embedding tracks
`__class__` (whose assignment always raises for a JSON value); the
remaining `__...__` attributes exist on the Python object but are
excluded from every path-general theorem by `plainSeg`. -/
def State.hasAttrP (s : State) (name : List Char) : Bool :=
  (s.getFieldP name).isSome || name == chars "to_dict" || name == chars "apply_patch" ||
    name == chars "__class__"

/-- Python `setattr(self, name, v)` for the names of `State.hasAttrP`:
data fields are assigned; assigning `to_dict` or `apply_patch` creates
an instance attribute shadowing the method, which leaves the 12-field
state tree unchanged (the shadow itself lives outside the tree);
assigning `__class__` raises `TypeError`, because a deserialized JSON
`Value` is never a class object. -/
def State.pySetAttr (s : State) (name : List Char) (v : Value) : Except String State :=
  if name == chars "__class__" then
    .error "TypeError: __class__ must be set to a class"
  else .ok (s.setFieldP name v)

/-- Segments on which the attribute and index machinery of the
embedding is exact: ASCII characters only, not a `__...` special
attribute of the Python object (such as `__class__`, whose assignment
raises, or `__dict__`, through which the source can replace or mutate
the instance dict), and not one of the two method names (whose
assignment shadows the method on the instance). -/
def plainSeg (cs : List Char) : Bool :=
  asciiSeg cs && !((chars "__").isPrefixOf cs) && !(cs == chars "to_dict") &&
    !(cs == chars "apply_patch")

/-- Every segment of the path is plain (see `plainSeg`). -/
def plainParts (path : String) : Bool :=
  (pathParts path).all plainSeg

/-- `State.apply_patch(path, value)` from `core/state.py`; `now` is the
wall clock value `datetime.utcnow().isoformat()` reads at the final
`last_updated` assignment. The UI branch returns before that
assignment, so it never touches `last_updated`; in the legacy branch the
assignment runs only if no exception was raised before it. Python
exceptions are modelled as `Except.error`: a `TypeError` in the
`/ui/hud/<key>` case when the `hud` field no longer holds a dict, a
`ValueError` from `int(parts[1])` when an index segment passes
`isdigit()` without being decimal, and a `TypeError` from `setattr` on
`__class__`. The attribute machinery is the 12-field state tree plus
the names documented at `State.hasAttrP`; path-general theorems restrict
their scope with `plainSeg`/`plainParts` to the segments on which this
is exact. -/
def State.apply_patch (s : State) (path : String) (value : Value) (now : String) :
    Except String State :=
  let parts := pathParts path
  if 2 ≤ parts.length ∧ parts.headD [] = chars "ui" then
    let p1 := parts.getD 1 []
    if p1 = chars "mode" then .ok { s with ui_mode := value }
    else if p1 = chars "appRoute" then .ok { s with app_route := value }
    else if p1 = chars "focusPath" then
      .ok { s with focus_path := if value.isList then value else .list [] }
    else if p1 = chars "gnArmed" then .ok { s with gn_armed := value }
    else if p1 = chars "debug" ∧ 3 ≤ parts.length then
      if parts.getD 2 [] = chars "enabled" then .ok { s with debug_enabled := value }
      else .ok s
    else if p1 = chars "hud" ∧ 3 ≤ parts.length then
      match pyInStr (parts.getD 2 []) s.hud with
      | .error e => .error e
      | .ok true =>
        match pySetItem s.hud (parts.getD 2 []) value with
        | .error e => .error e
        | .ok hud2 => .ok { s with hud := hud2 }
      | .ok false => .ok s
    else .ok s
  else
    let s1E : Except String State :=
      if parts.length = 1 then
        let p0 := parts.headD []
        if s.hasAttrP p0 then s.pySetAttr p0 value else .ok s
      else if parts.length = 2 ∧ parts.getD 1 [] = chars "+" then
        let p0 := parts.headD []
        .ok (match s.getFieldP p0 with
             | some (.list xs) => s.setFieldP p0 (.list (xs ++ [value]))
             | _ => s)
      else if parts.length = 2 then
        let p0 := parts.headD []
        let p1 := parts.getD 1 []
        match s.getFieldP p0 with
        | some (.list xs) =>
            if pyIsDigit p1 then
              match pyInt p1 with
              | .error e => .error e
              | .ok idx =>
                  .ok (if idx < xs.length then s.setFieldP p0 (.list (xs.set idx value))
                       else s)
            else .ok s
        | some (.obj kvs) => .ok (s.setFieldP p0 (.obj (dictSetP kvs p1 value)))
        | _ => .ok s
      else .ok s
    s1E.map (fun s1 => { s1 with last_updated := .str now })

/-- Python truthiness (`bool(x)`): None, False, 0, "", [], {} are falsy. -/
def pyTruthy : Value → Bool
  | .null => false
  | .bool b => b
  | .int n => n != 0
  | .str s => !(s = "")
  | .list xs => !xs.isEmpty
  | .obj kvs => !kvs.isEmpty

/-- Python `not x`, as the `Value` it produces. -/
def pyNot (v : Value) : Value := .bool (!pyTruthy v)

/-- Python `dict.get(k, default)` over an association list with unique keys. -/
def pyGet (d : List (String × Value)) (k : String) (default : Value) : Value :=
  match d.find? (fun kv => kv.1 == k) with
  | some kv => kv.2
  | none => default

/-- Python `dict.get(k)` (default `None`). -/
def pyGetOpt (d : List (String × Value)) (k : String) : Value :=
  pyGet d k .null

/-- Python `str.startswith`. -/
def pyStartsWith (s pre : String) : Bool := pre.data.isPrefixOf s.data

/-- `APP_REGISTRY` from `core/arbiter.py` (canonical order). -/
def APP_REGISTRY : List String :=
  ["home", "weather", "email", "finance", "news", "todos", "calendar", "settings"]

/-- `_get_visible_apps(mode)`: in `"public"` mode, `email` and `finance`
are filtered out; for any other value of `ui.mode` the full registry is
returned. `mode` is whatever `Value` currently sits in `state.ui_mode`. -/
def get_visible_apps (mode : Value) : List String :=
  if mode = .str "public" then
    APP_REGISTRY.filter (fun app => !(["email", "finance"].contains app))
  else APP_REGISTRY

/-- `_is_app_visible(app_id, mode)`; Python `in` compares with `==`. -/
def is_app_visible (app_id : Value) (mode : Value) : Bool :=
  (get_visible_apps mode).any (fun app => Value.str app == app_id)

/-- Python `list.index(x)` with `==` semantics: index of the first element
equal to `x`, or `none` for the `ValueError` case. -/
def pyIndex (l : List String) (x : Value) : Option Nat :=
  match l with
  | [] => none
  | a :: t => if Value.str a = x then some 0 else (pyIndex t x).map (· + 1)

/-- `_get_next_app(current_app, mode)`. -/
def get_next_app (current_app mode : Value) : String :=
  let visible_apps := get_visible_apps mode
  match pyIndex visible_apps current_app with
  | some idx => visible_apps.getD ((idx + 1) % visible_apps.length) "home"
  | none => visible_apps.headD "home"

/-- `_get_prev_app(current_app, mode)`. Python `(idx - 1) % len` on ints
equals `(idx + len - 1) % len` here because `0 ≤ idx < len`. -/
def get_prev_app (current_app mode : Value) : String :=
  let visible_apps := get_visible_apps mode
  match pyIndex visible_apps current_app with
  | some idx => visible_apps.getD ((idx + visible_apps.length - 1) % visible_apps.length) "home"
  | none => visible_apps.getLastD "home"

/-- A command source (`Literal["voice", "gesture", "system"]`). -/
inductive Source where
  | voice
  | gesture
  | system
deriving DecidableEq, Repr

/-- A `Command` (`models/core.py`): `id` and `ts` are already generated. -/
structure Command where
  id : String
  ts : String
  source : Source
  action : String
  payload : List (String × Value)
deriving DecidableEq, Repr

/-- An event type (`Literal["accepted", "rejected", "state_patch"]`). -/
inductive EventType where
  | accepted
  | rejected
  | state_patch
deriving DecidableEq, Repr

/-- An `Event` (`models/core.py`). -/
structure Event where
  id : String
  ts : String
  commandId : String
  type : EventType
  payload : List (String × Value)
deriving DecidableEq, Repr

/-- A `StatePatch` (`models/core.py`). -/
structure StatePatch where
  ts : String
  path : String
  value : Value
deriving DecidableEq, Repr

/-- `patch.dict()`. -/
def StatePatch.dict (p : StatePatch) : List (String × Value) :=
  [("ts", .str p.ts), ("path", .str p.path), ("value", p.value)]

/-- The outcome of one `handle_command` call: the returned `Event` (or
`none` where the Python function falls through and returns `None`), the
state afterwards, the events passed to `persist_event` and the patches
passed to `publish_state`, in call order. -/
structure HandleResult where
  event : Option Event
  state : State
  persisted : List Event
  published : List StatePatch
deriving DecidableEq, Repr

/-- The repeated body of the state_patch branches of `handle_command`:
build the `Event` carrying `patch.dict()`, apply the patch locally, then
persist the event and publish the patch. -/
def stepPatch (cmd : Command) (patch : StatePatch) (now : String) (s : State) :
    Except String HandleResult :=
  let event : Event :=
    { id := cmd.id, ts := cmd.ts, commandId := cmd.id, type := .state_patch,
      payload := patch.dict }
  match s.apply_patch patch.path patch.value now with
  | .error e => .error e
  | .ok s2 =>
      .ok { event := some event, state := s2, persisted := [event], published := [patch] }

/-- One arbiter step (`handle_command` in `core/arbiter.py`). `fuel`
bounds the `voice.nav` re-dispatch, which synthesises a command with
action `nav.nextApp`, `nav.prevApp`, `nav.backOrHome` or
`app.selectFocus`, none of which re-enters `voice.nav`; depth 2 therefore
covers every input, and `handle_command` below supplies it. `now` is the
wall clock reading passed on to `apply_patch`. -/
def handleFuel : Nat → Command → String → State → Except String HandleResult
  | 0, _, _, _ => .error "fuel exhausted (unreachable from depth 2)"
  | fuel + 1, cmd, now, s =>
    if pyStartsWith cmd.action "add_todo" then
      -- len(state.todos) raises TypeError unless todos is a list
      match s.todos with
      | .list xs =>
          stepPatch cmd
            { ts := cmd.ts, path := "/todos/+",
              value := .obj [("id", .int (xs.length + 1)),
                             ("text", pyGet cmd.payload "text" (.str "")),
                             ("completed", .bool false),
                             ("created_at", .str cmd.ts)] } now s
      | _ => .error "TypeError: object has no len()"
    else if cmd.action = "toggle_mic" then
      stepPatch cmd { ts := cmd.ts, path := "/mic_enabled", value := pyNot s.mic_enabled } now s
    else if cmd.action = "toggle_cam" then
      stepPatch cmd { ts := cmd.ts, path := "/cam_enabled", value := pyNot s.cam_enabled } now s
    else if pyStartsWith cmd.action "set_mode" then
      stepPatch cmd
        { ts := cmd.ts, path := "/mode", value := pyGet cmd.payload "mode" (.str "idle") } now s
    else if pyStartsWith cmd.action "gesture_" then
      stepPatch cmd
        { ts := cmd.ts, path := "/last_gesture",
          value := pyGet cmd.payload "gesture" (.str "idle") } now s
    else if cmd.action = "set_gn_armed" then
      stepPatch cmd
        { ts := cmd.ts, path := "/ui/gnArmed",
          value := pyGet cmd.payload "gnArmed" (.bool false) } now s
    else if cmd.action = "nav.nextApp" then
      stepPatch cmd
        { ts := cmd.ts, path := "/ui/appRoute",
          value := .str (get_next_app s.app_route s.ui_mode) } now s
    else if cmd.action = "nav.prevApp" then
      stepPatch cmd
        { ts := cmd.ts, path := "/ui/appRoute",
          value := .str (get_prev_app s.app_route s.ui_mode) } now s
    else if cmd.action = "nav.openAppFocused" then
      stepPatch cmd { ts := cmd.ts, path := "/ui/focusPath", value := .list [] } now s
    else if cmd.action = "nav.backOrHome" then
      if ¬(s.app_route = .str "home") then
        stepPatch cmd { ts := cmd.ts, path := "/ui/appRoute", value := .str "home" } now s
      else
        -- Python falls off the end of the branch and returns None
        .ok { event := none, state := s, persisted := [], published := [] }
    else if cmd.action = "app.navigate" then
      let event : Event :=
        { id := cmd.id, ts := cmd.ts, commandId := cmd.id, type := .accepted,
          payload := [("action", .str cmd.action),
                      ("direction", pyGet cmd.payload "direction" (.str "next"))] }
      .ok { event := some event, state := s, persisted := [event], published := [] }
    else if cmd.action = "app.selectFocus" then
      let event : Event :=
        { id := cmd.id, ts := cmd.ts, commandId := cmd.id, type := .accepted,
          payload := [("action", .str cmd.action)] }
      .ok { event := some event, state := s, persisted := [event], published := [] }
    else if cmd.action = "app.quickActions" then
      let event : Event :=
        { id := cmd.id, ts := cmd.ts, commandId := cmd.id, type := .accepted,
          payload := [("action", .str cmd.action)] }
      .ok { event := some event, state := s, persisted := [event], published := [] }
    else if cmd.action = "voice.openApp" then
      let app_id := pyGetOpt cmd.payload "app"
      if pyTruthy app_id && is_app_visible app_id s.ui_mode then
        stepPatch cmd { ts := cmd.ts, path := "/ui/appRoute", value := app_id } now s
      else
        .ok { event := none, state := s, persisted := [], published := [] }
    else if cmd.action = "voice.nav" then
      let nav_action := pyGetOpt cmd.payload "action"
      if nav_action = .str "next" then
        handleFuel fuel
          { id := cmd.id, ts := cmd.ts, source := .voice, action := "nav.nextApp",
            payload := [] } now s
      else if nav_action = .str "prev" ∨ nav_action = .str "previous" then
        handleFuel fuel
          { id := cmd.id, ts := cmd.ts, source := .voice, action := "nav.prevApp",
            payload := [] } now s
      else if nav_action = .str "back" then
        handleFuel fuel
          { id := cmd.id, ts := cmd.ts, source := .voice, action := "nav.backOrHome",
            payload := [] } now s
      else if nav_action = .str "select" then
        handleFuel fuel
          { id := cmd.id, ts := cmd.ts, source := .voice, action := "app.selectFocus",
            payload := [] } now s
      else
        .ok { event := none, state := s, persisted := [], published := [] }
    else if cmd.action = "system.toggleDebug" then
      stepPatch cmd
        { ts := cmd.ts, path := "/ui/debug/enabled", value := pyNot s.debug_enabled } now s
    else if cmd.action = "system.setMode" then
      let new_mode := pyGetOpt cmd.payload "mode"
      let code := pyGetOpt cmd.payload "code"
      if new_mode = .str "private" ∧ ¬(code = .str "unlock") then
        let event : Event :=
          { id := cmd.id, ts := cmd.ts, commandId := cmd.id, type := .rejected,
            payload := [("reason", .str "invalid_code"), ("action", .str cmd.action)] }
        .ok { event := some event, state := s, persisted := [event], published := [] }
      else if s.ui_mode = .str "private" ∧ new_mode = .str "public" ∧
          (s.app_route = .str "email" ∨ s.app_route = .str "finance") then
        -- state.app_route = "home" is a direct field write (no apply_patch,
        -- so last_updated is untouched); patch1 is published first
        let patch1 : StatePatch := { ts := cmd.ts, path := "/ui/appRoute", value := .str "home" }
        let s1 : State := { s with app_route := .str "home" }
        let patch : StatePatch := { ts := cmd.ts, path := "/ui/mode", value := new_mode }
        let event : Event :=
          { id := cmd.id, ts := cmd.ts, commandId := cmd.id, type := .state_patch,
            payload := patch.dict }
        match s1.apply_patch patch.path patch.value now with
        | .error e => .error e
        | .ok s2 =>
            .ok { event := some event, state := s2, persisted := [event],
                  published := [patch1, patch] }
      else
        stepPatch cmd { ts := cmd.ts, path := "/ui/mode", value := new_mode } now s
    else
      let event : Event :=
        { id := cmd.id, ts := cmd.ts, commandId := cmd.id, type := .rejected,
          payload := [("reason", .str "unknown_action"), ("action", .str cmd.action)] }
      .ok { event := some event, state := s, persisted := [event], published := [] }

/-- `handle_command(cmd)`: fuel 2 covers the single level of `voice.nav`
re-dispatch. -/
def handle_command (cmd : Command) (now : String) (s : State) : Except String HandleResult :=
  handleFuel 2 cmd now s

/-- Sequential processing of a list of commands, threading the state. -/
def runCommands (cmds : List Command) (now : String) (s : State) : Except String State :=
  match cmds with
  | [] => .ok s
  | c :: rest =>
      match handle_command c now s with
      | .error e => .error e
      | .ok r => runCommands rest now r.state

/-- A row of the `snapshots` table: its timestamp and the recorded state. -/
structure SnapshotRow where
  ts : String
  state : State
deriving DecidableEq, Repr

/-- Process startup (the `lifespan` hook in `main.py` together with the
module-level `state = State()` of `core/state.py`): the database is
initialised and the background workers are started, but no snapshot row
is ever read back, so the UIState begins at the defaults whatever the
latest snapshot holds. -/
def startupState (_latestSnapshot : Option SnapshotRow) (now : String) : State :=
  State.initial now

/-- The invariant of spec claim C2, as an executable check: the current
app route is (the string of) a member of the visible-app set. -/
def appRouteVisibleB (s : State) : Bool :=
  (get_visible_apps s.ui_mode).any (fun a => Value.str a == s.app_route)

/-- Does the path select the UI branch of `apply_patch`
(`len(parts) >= 2 and parts[0] == "ui"`)? -/
def isUiPath (path : String) : Bool :=
  decide (2 ≤ (pathParts path).length ∧ (pathParts path).headD [] = chars "ui")

/-- Is `key` a key of the `hud` field (assumed to hold a dict)? -/
def hudKeyPresent (s : State) (key : List Char) : Bool :=
  match s.hud with
  | .obj kvs => kvs.any (fun kv => kv.1.data = key)
  | _ => false

/-- The path matches none of the recognised forms of the patch grammar
(spec section 4.2) relative to the current state: unknown `/ui/...`
member, unknown HUD key, unknown top-level field, append on a non-list,
non-digit or out-of-range index on a list field, index on a non-container
field, or an unclassifiable shape of three or more non-ui segments. -/
def unrecognizedPath (path : String) (s : State) : Bool :=
  let parts := pathParts path
  if 2 ≤ parts.length ∧ parts.headD [] = chars "ui" then
    let p1 := parts.getD 1 []
    !(p1 == chars "mode") && !(p1 == chars "appRoute") && !(p1 == chars "focusPath") &&
    !(p1 == chars "gnArmed") &&
    !(p1 == chars "debug" && decide (3 ≤ parts.length) &&
      (parts.getD 2 [] == chars "enabled")) &&
    !(p1 == chars "hud" && decide (3 ≤ parts.length) && hudKeyPresent s (parts.getD 2 []))
  else if parts.length = 1 then
    (s.getFieldP (parts.headD [])).isNone
  else if parts.length = 2 ∧ parts.getD 1 [] = chars "+" then
    match s.getFieldP (parts.headD []) with
    | some (.list _) => false
    | _ => true
  else if parts.length = 2 then
    match s.getFieldP (parts.headD []) with
    | some (.list xs) =>
        !(pyIsDigit (parts.getD 1 []) && decide (digitsToNat (parts.getD 1 []) < xs.length))
    | some (.obj _) => false
    | _ => true
  else true

/-- A state with `last_updated` blanked out, for comparing patch results
up to the wall-clock stamp. -/
def stripLastUpdated (s : State) : State := { s with last_updated := .null }

/-- One `nav.nextApp` command through the arbiter, keeping the state
(identity on the unreachable error case). -/
def navNextStep (s : State) : State :=
  match handle_command ⟨"i", "t", .voice, "nav.nextApp", []⟩ "n" s with
  | .ok r => r.state
  | .error _ => s

/-- A command whose `system.setMode` payload (if it is one) asks for one
of the two documented modes. -/
def goodModeCmd (c : Command) : Prop :=
  c.action = "system.setMode" →
    (pyGetOpt c.payload "mode" = .str "public" ∨ pyGetOpt c.payload "mode" = .str "private")

instance (c : Command) : Decidable (goodModeCmd c) := by
  unfold goodModeCmd
  infer_instance

/-- The inductive invariant for claim C2: the mode is one of the two
documented values and the app route is a visible app. -/
def StateInv (s : State) : Prop :=
  (s.ui_mode = .str "public" ∨ s.ui_mode = .str "private") ∧ appRouteVisibleB s = true

/-! ### Evaluation lemmas for `apply_patch` on the concrete paths the arbiter emits -/

theorem apply_ui_mode (s : State) (v : Value) (now : String) :
    s.apply_patch "/ui/mode" v now = .ok { s with ui_mode := v } := rfl

theorem apply_ui_appRoute (s : State) (v : Value) (now : String) :
    s.apply_patch "/ui/appRoute" v now = .ok { s with app_route := v } := rfl

theorem apply_ui_focusPath (s : State) (v : Value) (now : String) :
    s.apply_patch "/ui/focusPath" v now
      = .ok { s with focus_path := if v.isList then v else .list [] } := rfl

theorem apply_ui_gnArmed (s : State) (v : Value) (now : String) :
    s.apply_patch "/ui/gnArmed" v now = .ok { s with gn_armed := v } := rfl

theorem apply_ui_debug_enabled (s : State) (v : Value) (now : String) :
    s.apply_patch "/ui/debug/enabled" v now = .ok { s with debug_enabled := v } := rfl

theorem apply_mode (s : State) (v : Value) (now : String) :
    s.apply_patch "/mode" v now
      = .ok { s with mode := v, last_updated := .str now } := rfl

theorem apply_mic_enabled (s : State) (v : Value) (now : String) :
    s.apply_patch "/mic_enabled" v now
      = .ok { s with mic_enabled := v, last_updated := .str now } := rfl

theorem apply_cam_enabled (s : State) (v : Value) (now : String) :
    s.apply_patch "/cam_enabled" v now
      = .ok { s with cam_enabled := v, last_updated := .str now } := rfl

theorem apply_last_gesture (s : State) (v : Value) (now : String) :
    s.apply_patch "/last_gesture" v now
      = .ok { s with last_gesture := v, last_updated := .str now } := rfl

theorem apply_todos_append (s : State) (xs : List Value) (v : Value) (now : String)
    (h : s.todos = .list xs) :
    s.apply_patch "/todos/+" v now
      = .ok { s with todos := .list (xs ++ [v]), last_updated := .str now } := by
  obtain ⟨f1, f2, f3, f4, f5, f6, f7, f8, f9, f10, f11, f12⟩ := s
  simp only at h
  subst h
  rfl

/-- `stepPatch` succeeds exactly when the patch applies. -/
theorem stepPatch_ok (cmd : Command) (patch : StatePatch) (now : String) (s s2 : State)
    (h : s.apply_patch patch.path patch.value now = .ok s2) :
    stepPatch cmd patch now s
      = .ok { event := some { id := cmd.id, ts := cmd.ts, commandId := cmd.id,
                              type := .state_patch, payload := patch.dict },
              state := s2,
              persisted := [{ id := cmd.id, ts := cmd.ts, commandId := cmd.id,
                              type := .state_patch, payload := patch.dict }],
              published := [patch] } := by
  unfold stepPatch
  rw [h]

/-! ### Evaluation lemmas for the commands `voice.nav` re-dispatches -/

theorem handleFuel_one_nextApp (i t : String) (src : Source) (pl : List (String × Value))
    (now : String) (s : State) :
    handleFuel 1 ⟨i, t, src, "nav.nextApp", pl⟩ now s
      = stepPatch ⟨i, t, src, "nav.nextApp", pl⟩
          ⟨t, "/ui/appRoute", .str (get_next_app s.app_route s.ui_mode)⟩ now s := rfl

theorem handleFuel_one_prevApp (i t : String) (src : Source) (pl : List (String × Value))
    (now : String) (s : State) :
    handleFuel 1 ⟨i, t, src, "nav.prevApp", pl⟩ now s
      = stepPatch ⟨i, t, src, "nav.prevApp", pl⟩
          ⟨t, "/ui/appRoute", .str (get_prev_app s.app_route s.ui_mode)⟩ now s := rfl

theorem handleFuel_one_backOrHome (i t : String) (src : Source) (pl : List (String × Value))
    (now : String) (s : State) :
    handleFuel 1 ⟨i, t, src, "nav.backOrHome", pl⟩ now s
      = if ¬(s.app_route = .str "home") then
          stepPatch ⟨i, t, src, "nav.backOrHome", pl⟩
            ⟨t, "/ui/appRoute", .str "home"⟩ now s
        else .ok { event := none, state := s, persisted := [], published := [] } := rfl

theorem handleFuel_one_selectFocus (i t : String) (src : Source) (pl : List (String × Value))
    (now : String) (s : State) :
    handleFuel 1 ⟨i, t, src, "app.selectFocus", pl⟩ now s
      = .ok { event := some { id := i, ts := t, commandId := i, type := .accepted,
                              payload := [("action", .str "app.selectFocus")] },
              state := s,
              persisted := [{ id := i, ts := t, commandId := i, type := .accepted,
                              payload := [("action", .str "app.selectFocus")] }],
              published := [] } := rfl

/-- `handle_command` on a `system.setMode` command, unfolded to that
policy branch. -/
theorem handle_setMode_eq (i t : String) (src : Source) (pl : List (String × Value))
    (now : String) (s : State) :
    handle_command ⟨i, t, src, "system.setMode", pl⟩ now s
      = (if pyGetOpt pl "mode" = .str "private" ∧ ¬(pyGetOpt pl "code" = .str "unlock") then
           .ok { event :=
                   some ⟨i, t, i, .rejected,
                         [("reason", .str "invalid_code"), ("action", .str "system.setMode")]⟩,
                 state := s,
                 persisted :=
                   [⟨i, t, i, .rejected,
                     [("reason", .str "invalid_code"), ("action", .str "system.setMode")]⟩],
                 published := [] }
         else if s.ui_mode = .str "private" ∧ pyGetOpt pl "mode" = .str "public" ∧
             (s.app_route = .str "email" ∨ s.app_route = .str "finance") then
           match ({ s with app_route := .str "home" } : State).apply_patch "/ui/mode"
               (pyGetOpt pl "mode") now with
           | .error e => .error e
           | .ok s2 =>
               .ok { event :=
                       some ⟨i, t, i, .state_patch,
                             StatePatch.dict ⟨t, "/ui/mode", pyGetOpt pl "mode"⟩⟩,
                     state := s2,
                     persisted :=
                       [⟨i, t, i, .state_patch,
                         StatePatch.dict ⟨t, "/ui/mode", pyGetOpt pl "mode"⟩⟩],
                     published :=
                       [⟨t, "/ui/appRoute", .str "home"⟩,
                        ⟨t, "/ui/mode", pyGetOpt pl "mode"⟩] }
         else
           stepPatch ⟨i, t, src, "system.setMode", pl⟩ ⟨t, "/ui/mode", pyGetOpt pl "mode"⟩ now s) :=
  rfl

/-! ### Small list lemmas used for the app-registry reasoning -/

theorem getD_mem {α : Type} : ∀ (l : List α) (n : Nat) (d : α), n < l.length → l.getD n d ∈ l
  | a :: _, 0, _, _ => List.mem_cons_self a _
  | _ :: t, n + 1, d, h =>
      List.mem_cons_of_mem _ (getD_mem t n d (by simpa using h))

theorem headD_mem {α : Type} (l : List α) (d : α) (h : l ≠ []) : l.headD d ∈ l := by
  cases l with
  | nil => exact absurd rfl h
  | cons a t => exact List.mem_cons_self a t

theorem except_map_map (f g : State → State) (e : Except String State) :
    (e.map f).map g = e.map (g ∘ f) := by
  cases e <;> rfl

theorem except_map_ok {f : State → State} {e : Except String State} {x : State}
    (h : e.map f = .ok x) : ∃ y, e = .ok y ∧ x = f y := by
  cases e with
  | error err => cases h
  | ok y =>
      refine ⟨y, rfl, ?_⟩
      cases h
      rfl

theorem splitSlashes_ne_nil : ∀ cs : List Char, splitSlashes cs ≠ [] := by
  intro cs
  cases cs with
  | nil => simp [splitSlashes]
  | cons c rest =>
      unfold splitSlashes
      dsimp only
      split <;> simp

theorem pathParts_ne_nil (path : String) : pathParts path ≠ [] :=
  splitSlashes_ne_nil _

theorem plainParts_head (path : String) (h : plainParts path = true) :
    plainSeg ((pathParts path).headD []) = true := by
  unfold plainParts at h
  exact List.all_eq_true.mp h _ (headD_mem _ _ (pathParts_ne_nil path))

theorem plainParts_getD (path : String) (n : Nat) (hn : n < (pathParts path).length)
    (h : plainParts path = true) : plainSeg ((pathParts path).getD n []) = true := by
  unfold plainParts at h
  exact List.all_eq_true.mp h _ (getD_mem _ n _ hn)

theorem plainSeg_ascii (cs : List Char) (h : plainSeg cs = true) : asciiSeg cs = true := by
  unfold plainSeg at h
  rw [Bool.and_eq_true, Bool.and_eq_true, Bool.and_eq_true] at h
  exact h.1.1.1

/-- On a plain segment, `hasattr` reduces to the data-field lookup. -/
theorem hasAttrP_of_plain (s : State) (cs : List Char) (h : plainSeg cs = true) :
    s.hasAttrP cs = (s.getFieldP cs).isSome := by
  have h1 : (cs == chars "to_dict") = false := by
    rw [beq_eq_false_iff_ne]
    intro he
    rw [he] at h
    exact absurd h (by decide)
  have h2 : (cs == chars "apply_patch") = false := by
    rw [beq_eq_false_iff_ne]
    intro he
    rw [he] at h
    exact absurd h (by decide)
  have h3 : (cs == chars "__class__") = false := by
    rw [beq_eq_false_iff_ne]
    intro he
    rw [he] at h
    exact absurd h (by decide)
  unfold State.hasAttrP
  rw [h1, h2, h3]
  simp

/-- On a plain segment, `setattr` never raises. -/
theorem pySetAttr_of_plain (s : State) (cs : List Char) (v : Value)
    (h : plainSeg cs = true) : s.pySetAttr cs v = .ok (s.setFieldP cs v) := by
  have h3 : (cs == chars "__class__") = false := by
    rw [beq_eq_false_iff_ne]
    intro he
    rw [he] at h
    exact absurd h (by decide)
  unfold State.pySetAttr
  rw [h3]
  rw [if_neg (by decide)]

theorem charDecimalVal_ascii (c : Char) (ha : c.toNat < 128)
    (hd : pyCharIsDigit c = true) : charDecimalVal c = some (c.toNat - 48) := by
  unfold pyCharIsDigit at hd
  unfold charDecimalVal at hd ⊢
  by_cases h09 : 48 ≤ c.toNat ∧ c.toNat ≤ 57
  · rw [if_pos h09]
  · rw [if_neg h09] at hd ⊢
    by_cases har : 0x660 ≤ c.toNat ∧ c.toNat ≤ 0x669
    · exact absurd har (by omega)
    · rw [if_neg har] at hd ⊢
      exfalso
      simp only [Option.isSome_none, Bool.false_or] at hd
      have := of_decide_eq_true hd
      omega

theorem pyIsDigit_all (cs : List Char) (h : pyIsDigit cs = true) :
    cs.all pyCharIsDigit = true := by
  unfold pyIsDigit at h
  rw [Bool.and_eq_true] at h
  exact h.2

theorem pyInt_go_ascii : ∀ (cs : List Char) (n : Nat),
    (∀ c ∈ cs, charDecimalVal c = some (c.toNat - 48)) →
    pyInt.go cs n = .ok (cs.foldl (fun m c => m * 10 + (c.toNat - 48)) n)
  | [], _, _ => rfl
  | c :: rest, n, h => by
      unfold pyInt.go
      rw [h c (List.mem_cons_self c rest)]
      dsimp only
      rw [pyInt_go_ascii rest (n * 10 + (c.toNat - 48))
        (fun d hd => h d (List.mem_cons_of_mem c hd))]
      rfl

/-- On an ASCII segment that passed `isdigit()`, `int()` succeeds with
the base-10 value — exactly CPython's behaviour on the ASCII plane. -/
theorem pyInt_ascii (cs : List Char) (ha : asciiSeg cs = true)
    (hd : pyIsDigit cs = true) : pyInt cs = .ok (digitsToNat cs) := by
  unfold pyInt digitsToNat
  apply pyInt_go_ascii
  intro c hc
  have ha' : c.toNat < 128 := by
    have := List.all_eq_true.mp ha c hc
    exact of_decide_eq_true this
  exact charDecimalVal_ascii c ha' (List.all_eq_true.mp (pyIsDigit_all cs hd) c hc)

/-- Fidelity of the digit machinery outside ASCII: the Arabic-Indic
segment `٣` passes `str.isdigit()` and `int()` parses it as 3, so on a
four-element `todos` list the patch really mutates index 3 and stamps
the clock — CPython behaves the same, which is why only decimal
behaviour, not a plain no-op, can be claimed for non-ASCII indices. -/
theorem arabic_indic_index_assigns :
    ({ State.initial "t0" with
        todos := .list [.int 0, .int 1, .int 2, .int 3] } : State).apply_patch
      "/todos/٣" (.str "x") "t1"
      = .ok { State.initial "t0" with
          todos := .list [.int 0, .int 1, .int 2, .str "x"],
          last_updated := .str "t1" } := by
  decide

theorem getLastD_mem : ∀ (l : List String) (d : String), l ≠ [] → l.getLastD d ∈ l
  | [a], _, _ => List.mem_cons_self a _
  | a :: b :: t, d, _ => by
      have h := getLastD_mem (b :: t) d (by simp)
      have : (a :: b :: t).getLastD d = (b :: t).getLastD d := by
        simp [List.getLastD]
      rw [this]
      exact List.mem_cons_of_mem a h

theorem pyIndex_lt_length : ∀ (l : List String) (x : Value) (i : Nat),
    pyIndex l x = some i → i < l.length := by
  intro l
  induction l with
  | nil => intro x i h; simp [pyIndex] at h
  | cons a t ih =>
      intro x i h
      unfold pyIndex at h
      by_cases ha : Value.str a = x
      · rw [if_pos ha] at h
        cases h
        simp
      · rw [if_neg ha] at h
        cases hi : pyIndex t x with
        | none => rw [hi] at h; simp at h
        | some j =>
            rw [hi] at h
            simp at h
            subst h
            have := ih x j hi
            simpa using Nat.succ_lt_succ this

theorem pyIndex_none (l : List String) (x : Value)
    (h : ∀ a ∈ l, ¬(Value.str a = x)) : pyIndex l x = none := by
  induction l with
  | nil => rfl
  | cons a t ih =>
      unfold pyIndex
      rw [if_neg (h a (List.mem_cons_self a t))]
      rw [ih (fun b hb => h b (List.mem_cons_of_mem a hb))]
      rfl

/-- The visible-app list is one of two concrete lists. -/
theorem get_visible_apps_cases (mode : Value) :
    get_visible_apps mode = ["home", "weather", "news", "todos", "calendar", "settings"]
      ∨ get_visible_apps mode = APP_REGISTRY := by
  unfold get_visible_apps
  split
  · left; rfl
  · right; rfl

theorem get_visible_apps_ne_nil (mode : Value) : get_visible_apps mode ≠ [] := by
  rcases get_visible_apps_cases mode with h | h <;> rw [h] <;> simp [APP_REGISTRY]

theorem home_mem_visible (mode : Value) : "home" ∈ get_visible_apps mode := by
  rcases get_visible_apps_cases mode with h | h <;> rw [h] <;> simp [APP_REGISTRY]

theorem visible_subset_registry (mode : Value) (a : String)
    (h : a ∈ get_visible_apps mode) : a ∈ APP_REGISTRY := by
  rcases get_visible_apps_cases mode with hv | hv <;> rw [hv] at h
  · simp [APP_REGISTRY] at h ⊢
    tauto
  · exact h

theorem mem_visible_public (a : String) (h : a ∈ APP_REGISTRY)
    (h1 : ¬(a = "email")) (h2 : ¬(a = "finance")) :
    a ∈ get_visible_apps (.str "public") := by
  have : get_visible_apps (.str "public")
      = ["home", "weather", "news", "todos", "calendar", "settings"] := rfl
  rw [this]
  simp [APP_REGISTRY] at h
  rcases h with rfl | rfl | rfl | rfl | rfl | rfl | rfl | rfl <;> simp_all

/-- `_get_next_app` always lands in the visible set. -/
theorem get_next_app_mem (cur mode : Value) :
    get_next_app cur mode ∈ get_visible_apps mode := by
  unfold get_next_app
  dsimp only
  cases h : pyIndex (get_visible_apps mode) cur with
  | none =>
      exact headD_mem _ _ (get_visible_apps_ne_nil mode)
  | some i =>
      have hi := pyIndex_lt_length _ _ _ h
      exact getD_mem _ _ _ (Nat.mod_lt _ (Nat.lt_of_le_of_lt (Nat.zero_le i) hi))

/-- `_get_prev_app` always lands in the visible set. -/
theorem get_prev_app_mem (cur mode : Value) :
    get_prev_app cur mode ∈ get_visible_apps mode := by
  unfold get_prev_app
  dsimp only
  cases h : pyIndex (get_visible_apps mode) cur with
  | none =>
      exact getLastD_mem _ _ (get_visible_apps_ne_nil mode)
  | some i =>
      have hi := pyIndex_lt_length _ _ _ h
      exact getD_mem _ _ _ (Nat.mod_lt _ (Nat.lt_of_le_of_lt (Nat.zero_le i) hi))

theorem appRouteVisibleB_of_mem (s : State) (a : String)
    (hmem : a ∈ get_visible_apps s.ui_mode) (hroute : s.app_route = .str a) :
    appRouteVisibleB s = true := by
  unfold appRouteVisibleB
  rw [List.any_eq_true]
  exact ⟨a, hmem, by rw [hroute]; simp⟩

theorem appRouteVisibleB_elim (s : State) (h : appRouteVisibleB s = true) :
    ∃ a ∈ get_visible_apps s.ui_mode, s.app_route = .str a := by
  unfold appRouteVisibleB at h
  rw [List.any_eq_true] at h
  obtain ⟨a, hmem, hbeq⟩ := h
  exact ⟨a, hmem, by rw [beq_iff_eq] at hbeq; exact hbeq.symm⟩

theorem is_app_visible_elim (app mode : Value) (h : is_app_visible app mode = true) :
    ∃ a ∈ get_visible_apps mode, app = .str a := by
  unfold is_app_visible at h
  rw [List.any_eq_true] at h
  obtain ⟨a, hmem, hbeq⟩ := h
  exact ⟨a, hmem, by rw [beq_iff_eq] at hbeq; exact hbeq.symm⟩

set_option maxHeartbeats 1600000 in
/-- One arbiter step preserves the C2 invariant, provided a
`system.setMode` command only asks for the two documented modes. -/
theorem handle_preserves_inv :
    ∀ (cmd : Command) (now : String) (s : State) (r : HandleResult),
      StateInv s → goodModeCmd cmd → handle_command cmd now s = .ok r →
      StateInv r.state := by
  intro cmd now s r hInv hgood h
  obtain ⟨ci, ct, csrc, ca, cpl⟩ := cmd
  unfold handle_command handleFuel at h
  by_cases h1 : pyStartsWith ca "add_todo" = true
  · simp only [if_pos h1] at h
    cases htd : s.todos with
    | list xs =>
        rw [htd] at h
        dsimp only at h
        rw [stepPatch_ok _ _ _ _ _ (apply_todos_append s xs _ now htd)] at h
        cases h
        exact hInv
    | null => rw [htd] at h; dsimp only at h; cases h
    | bool b => rw [htd] at h; dsimp only at h; cases h
    | int n => rw [htd] at h; dsimp only at h; cases h
    | str t2 => rw [htd] at h; dsimp only at h; cases h
    | obj kvs => rw [htd] at h; dsimp only at h; cases h
  simp only [if_neg h1] at h
  by_cases h2 : ca = "toggle_mic"
  · simp only [if_pos h2] at h
    rw [stepPatch_ok _ _ _ _ _ (apply_mic_enabled s _ now)] at h
    cases h
    exact hInv
  simp only [if_neg h2] at h
  by_cases h3 : ca = "toggle_cam"
  · simp only [if_pos h3] at h
    rw [stepPatch_ok _ _ _ _ _ (apply_cam_enabled s _ now)] at h
    cases h
    exact hInv
  simp only [if_neg h3] at h
  by_cases h4 : pyStartsWith ca "set_mode" = true
  · simp only [if_pos h4] at h
    rw [stepPatch_ok _ _ _ _ _ (apply_mode s _ now)] at h
    cases h
    exact hInv
  simp only [if_neg h4] at h
  by_cases h5 : pyStartsWith ca "gesture_" = true
  · simp only [if_pos h5] at h
    rw [stepPatch_ok _ _ _ _ _ (apply_last_gesture s _ now)] at h
    cases h
    exact hInv
  simp only [if_neg h5] at h
  by_cases h6 : ca = "set_gn_armed"
  · simp only [if_pos h6] at h
    rw [stepPatch_ok _ _ _ _ _ (apply_ui_gnArmed s _ now)] at h
    cases h
    exact hInv
  simp only [if_neg h6] at h
  by_cases h7 : ca = "nav.nextApp"
  · simp only [if_pos h7] at h
    rw [stepPatch_ok _ _ _ _ _ (apply_ui_appRoute s _ now)] at h
    cases h
    exact ⟨hInv.1, appRouteVisibleB_of_mem _ _ (get_next_app_mem s.app_route s.ui_mode) rfl⟩
  simp only [if_neg h7] at h
  by_cases h8 : ca = "nav.prevApp"
  · simp only [if_pos h8] at h
    rw [stepPatch_ok _ _ _ _ _ (apply_ui_appRoute s _ now)] at h
    cases h
    exact ⟨hInv.1, appRouteVisibleB_of_mem _ _ (get_prev_app_mem s.app_route s.ui_mode) rfl⟩
  simp only [if_neg h8] at h
  by_cases h9 : ca = "nav.openAppFocused"
  · simp only [if_pos h9] at h
    rw [stepPatch_ok _ _ _ _ _ (apply_ui_focusPath s _ now)] at h
    cases h
    exact hInv
  simp only [if_neg h9] at h
  by_cases h10 : ca = "nav.backOrHome"
  · simp only [if_pos h10] at h
    by_cases hr : s.app_route = .str "home"
    · simp only [if_neg (not_not_intro hr)] at h
      cases h
      exact hInv
    · simp only [if_pos hr] at h
      rw [stepPatch_ok _ _ _ _ _ (apply_ui_appRoute s _ now)] at h
      cases h
      exact ⟨hInv.1, appRouteVisibleB_of_mem _ _ (home_mem_visible s.ui_mode) rfl⟩
  simp only [if_neg h10] at h
  by_cases h11 : ca = "app.navigate"
  · simp only [if_pos h11] at h
    cases h
    exact hInv
  simp only [if_neg h11] at h
  by_cases h12 : ca = "app.selectFocus"
  · simp only [if_pos h12] at h
    cases h
    exact hInv
  simp only [if_neg h12] at h
  by_cases h13 : ca = "app.quickActions"
  · simp only [if_pos h13] at h
    cases h
    exact hInv
  simp only [if_neg h13] at h
  by_cases h14 : ca = "voice.openApp"
  · simp only [if_pos h14] at h
    by_cases hg : (pyTruthy (pyGetOpt cpl "app")
        && is_app_visible (pyGetOpt cpl "app") s.ui_mode) = true
    · simp only [if_pos hg] at h
      rw [stepPatch_ok _ _ _ _ _ (apply_ui_appRoute s _ now)] at h
      cases h
      have hg2 := hg
      rw [Bool.and_eq_true] at hg2
      obtain ⟨a, hmem, happ⟩ := is_app_visible_elim _ _ hg2.2
      exact ⟨hInv.1, appRouteVisibleB_of_mem _ a hmem happ⟩
    · simp only [if_neg hg] at h
      cases h
      exact hInv
  simp only [if_neg h14] at h
  by_cases h15 : ca = "voice.nav"
  · simp only [if_pos h15] at h
    by_cases hn1 : pyGetOpt cpl "action" = .str "next"
    · simp only [if_pos hn1, handleFuel_one_nextApp] at h
      rw [stepPatch_ok _ _ _ _ _ (apply_ui_appRoute s _ now)] at h
      cases h
      exact ⟨hInv.1, appRouteVisibleB_of_mem _ _ (get_next_app_mem s.app_route s.ui_mode) rfl⟩
    simp only [if_neg hn1] at h
    by_cases hn2 : pyGetOpt cpl "action" = .str "prev" ∨ pyGetOpt cpl "action" = .str "previous"
    · simp only [if_pos hn2, handleFuel_one_prevApp] at h
      rw [stepPatch_ok _ _ _ _ _ (apply_ui_appRoute s _ now)] at h
      cases h
      exact ⟨hInv.1, appRouteVisibleB_of_mem _ _ (get_prev_app_mem s.app_route s.ui_mode) rfl⟩
    simp only [if_neg hn2] at h
    by_cases hn3 : pyGetOpt cpl "action" = .str "back"
    · simp only [if_pos hn3, handleFuel_one_backOrHome] at h
      by_cases hr : s.app_route = .str "home"
      · simp only [if_neg (not_not_intro hr)] at h
        cases h
        exact hInv
      · simp only [if_pos hr] at h
        rw [stepPatch_ok _ _ _ _ _ (apply_ui_appRoute s _ now)] at h
        cases h
        exact ⟨hInv.1, appRouteVisibleB_of_mem _ _ (home_mem_visible s.ui_mode) rfl⟩
    simp only [if_neg hn3] at h
    by_cases hn4 : pyGetOpt cpl "action" = .str "select"
    · simp only [if_pos hn4, handleFuel_one_selectFocus] at h
      cases h
      exact hInv
    · simp only [if_neg hn4] at h
      cases h
      exact hInv
  simp only [if_neg h15] at h
  by_cases h16 : ca = "system.toggleDebug"
  · simp only [if_pos h16] at h
    rw [stepPatch_ok _ _ _ _ _ (apply_ui_debug_enabled s _ now)] at h
    cases h
    exact hInv
  simp only [if_neg h16] at h
  by_cases h17 : ca = "system.setMode"
  · simp only [if_pos h17] at h
    rcases hgood h17 with hm | hm
    · -- requested mode "public"
      have hrej : ¬(pyGetOpt cpl "mode" = .str "private" ∧
          ¬(pyGetOpt cpl "code" = .str "unlock")) := by
        rw [hm]; intro hc; exact absurd hc.1 (by decide)
      simp only [if_neg hrej] at h
      by_cases hgo : s.ui_mode = .str "private" ∧ pyGetOpt cpl "mode" = .str "public" ∧
          (s.app_route = .str "email" ∨ s.app_route = .str "finance")
      · simp only [if_pos hgo, apply_ui_mode] at h
        cases h
        refine ⟨Or.inl hm, ?_⟩
        refine appRouteVisibleB_of_mem _ "home" ?_ rfl
        exact home_mem_visible _
      · simp only [if_neg hgo] at h
        rw [stepPatch_ok _ _ _ _ _ (apply_ui_mode s _ now)] at h
        cases h
        refine ⟨Or.inl hm, ?_⟩
        obtain ⟨a, hmem, hroute⟩ := appRouteVisibleB_elim s hInv.2
        rcases hInv.1 with hpub | hpriv
        · refine appRouteVisibleB_of_mem _ a ?_ hroute
          show a ∈ get_visible_apps (pyGetOpt cpl "mode")
          rw [hm, ← hpub]
          exact hmem
        · have hnef : ¬(s.app_route = .str "email" ∨ s.app_route = .str "finance") :=
            fun hc => hgo ⟨hpriv, hm, hc⟩
          have hreg : a ∈ APP_REGISTRY := visible_subset_registry s.ui_mode a hmem
          have hae : ¬(a = "email") := fun hc => hnef (Or.inl (by rw [hroute, hc]))
          have haf : ¬(a = "finance") := fun hc => hnef (Or.inr (by rw [hroute, hc]))
          refine appRouteVisibleB_of_mem _ a ?_ hroute
          show a ∈ get_visible_apps (pyGetOpt cpl "mode")
          rw [hm]
          exact mem_visible_public a hreg hae haf
    · -- requested mode "private"
      by_cases hrej : pyGetOpt cpl "mode" = .str "private" ∧
          ¬(pyGetOpt cpl "code" = .str "unlock")
      · simp only [if_pos hrej] at h
        cases h
        exact hInv
      · simp only [if_neg hrej] at h
        have hgo : ¬(s.ui_mode = .str "private" ∧ pyGetOpt cpl "mode" = .str "public" ∧
            (s.app_route = .str "email" ∨ s.app_route = .str "finance")) := by
          rw [hm]; intro hc; exact absurd hc.2.1 (by decide)
        simp only [if_neg hgo] at h
        rw [stepPatch_ok _ _ _ _ _ (apply_ui_mode s _ now)] at h
        cases h
        refine ⟨Or.inr hm, ?_⟩
        obtain ⟨a, hmem, hroute⟩ := appRouteVisibleB_elim s hInv.2
        refine appRouteVisibleB_of_mem _ a ?_ hroute
        show a ∈ get_visible_apps (pyGetOpt cpl "mode")
        rw [hm]
        have : get_visible_apps (.str "private") = APP_REGISTRY := rfl
        rw [this]
        exact visible_subset_registry s.ui_mode a hmem
  simp only [if_neg h17] at h
  cases h
  exact hInv

/-- `runCommands` from any invariant state stays in the invariant. -/
theorem runCommands_inv :
    ∀ (cmds : List Command) (now : String) (s s2 : State),
      StateInv s → (∀ c ∈ cmds, goodModeCmd c) →
      runCommands cmds now s = .ok s2 → StateInv s2 := by
  intro cmds
  induction cmds with
  | nil =>
      intro now s s2 hInv _ h
      cases h
      exact hInv
  | cons c rest ih =>
      intro now s s2 hInv hgood h
      unfold runCommands at h
      cases hc : handle_command c now s with
      | error e => rw [hc] at h; cases h
      | ok r =>
          rw [hc] at h
          dsimp only at h
          exact ih now r.state s2
            (handle_preserves_inv c now s r hInv (hgood c (List.mem_cons_self c rest)) hc)
            (fun d hd => hgood d (List.mem_cons_of_mem c hd)) h

/-- Python `list.index` recovers the position of the `i`-th element of a
duplicate-free list. -/
theorem pyIndex_get : ∀ (L : List String), L.Nodup → ∀ (i : Nat) (hi : i < L.length),
    pyIndex L (.str (L.get ⟨i, hi⟩)) = some i := by
  intro L
  induction L with
  | nil => intro _ i hi; cases hi
  | cons a t ih =>
      intro hnd i hi
      cases i with
      | zero =>
          unfold pyIndex
          have harg : (a :: t).get ⟨0, hi⟩ = a := rfl
          rw [harg, if_pos rfl]
      | succ j =>
          unfold pyIndex
          have hj : j < t.length := by simpa using hi
          have hmem : t.get ⟨j, hj⟩ ∈ t := List.get_mem t j hj
          have hne : ¬(Value.str a = .str ((a :: t).get ⟨j + 1, hi⟩)) := by
            intro he
            have : a = t.get ⟨j, hj⟩ := by
              have := Value.str.inj he
              simpa using this
            exact (List.nodup_cons.mp hnd).1 (this ▸ hmem)
          rw [if_neg hne]
          have := ih (List.nodup_cons.mp hnd).2 j hj
          have harg : (a :: t).get ⟨j + 1, hi⟩ = t.get ⟨j, hj⟩ := rfl
          rw [harg, this]
          rfl

/-! ### Claim theorems -/

/-- C7: a `system.setMode` command asking for `"private"` with a code
other than the configured `"unlock"` is rejected with reason
`invalid_code`, no patch is published, and the state is unchanged. -/
theorem C7_setMode_invalid_code :
    ∀ (i t : String) (src : Source) (pl : List (String × Value)) (now : String) (s : State),
      pyGetOpt pl "mode" = .str "private" → ¬(pyGetOpt pl "code" = .str "unlock") →
      handle_command ⟨i, t, src, "system.setMode", pl⟩ now s
        = .ok { event :=
                  some ⟨i, t, i, .rejected,
                        [("reason", .str "invalid_code"), ("action", .str "system.setMode")]⟩,
                state := s,
                persisted :=
                  [⟨i, t, i, .rejected,
                    [("reason", .str "invalid_code"), ("action", .str "system.setMode")]⟩],
                published := [] } := by
  intro i t src pl now s hmode hcode
  rw [handle_setMode_eq]
  rw [if_pos ⟨hmode, hcode⟩]

/-- C7, witness: the rejection at a concrete wrong-code command on the
default state. -/
theorem C7_witness :
    handle_command ⟨"i", "t", .system, "system.setMode",
        [("mode", .str "private"), ("code", .str "wrong")]⟩ "n" (State.initial "t0")
      = .ok { event :=
                some ⟨"i", "t", "i", .rejected,
                      [("reason", .str "invalid_code"), ("action", .str "system.setMode")]⟩,
              state := State.initial "t0",
              persisted :=
                [⟨"i", "t", "i", .rejected,
                  [("reason", .str "invalid_code"), ("action", .str "system.setMode")]⟩],
              published := [] } :=
  C7_setMode_invalid_code "i" "t" .system [("mode", .str "private"), ("code", .str "wrong")]
    "n" (State.initial "t0") (by decide) (by decide)

/-- C6: `system.setMode` to `"public"` while the mode is `"private"` and
the route is a private app publishes exactly two patches in order —
`/ui/appRoute ← "home"` then `/ui/mode ← "public"` — ends with
`ui.mode = "public"` and `ui.appRoute = "home"`, and returns a
state_patch Event carrying the mode patch. -/
theorem C6_setMode_private_to_public :
    ∀ (i t : String) (src : Source) (pl : List (String × Value)) (now : String) (s : State),
      pyGetOpt pl "mode" = .str "public" →
      s.ui_mode = .str "private" →
      (s.app_route = .str "email" ∨ s.app_route = .str "finance") →
      handle_command ⟨i, t, src, "system.setMode", pl⟩ now s
        = .ok { event :=
                  some ⟨i, t, i, .state_patch, StatePatch.dict ⟨t, "/ui/mode", .str "public"⟩⟩,
                state := { s with app_route := .str "home", ui_mode := .str "public" },
                persisted :=
                  [⟨i, t, i, .state_patch, StatePatch.dict ⟨t, "/ui/mode", .str "public"⟩⟩],
                published :=
                  [⟨t, "/ui/appRoute", .str "home"⟩, ⟨t, "/ui/mode", .str "public"⟩] } := by
  intro i t src pl now s hmode hpriv hroute
  rw [handle_setMode_eq]
  rw [if_neg (fun hc => by rw [hmode] at hc; exact absurd hc.1 (by decide))]
  rw [if_pos ⟨hpriv, hmode, hroute⟩]
  rw [hmode]
  rw [apply_ui_mode]

/-- C6, witness: the two ordered patches and final state at a concrete
command from the private/email state. -/
theorem C6_witness :
    handle_command ⟨"i", "t", .voice, "system.setMode", [("mode", .str "public")]⟩ "n"
        { State.initial "t0" with ui_mode := .str "private", app_route := .str "email" }
      = .ok { event :=
                some ⟨"i", "t", "i", .state_patch,
                      StatePatch.dict ⟨"t", "/ui/mode", .str "public"⟩⟩,
              state :=
                { State.initial "t0" with ui_mode := .str "public", app_route := .str "home" },
              persisted :=
                [⟨"i", "t", "i", .state_patch,
                  StatePatch.dict ⟨"t", "/ui/mode", .str "public"⟩⟩],
              published :=
                [⟨"t", "/ui/appRoute", .str "home"⟩, ⟨"t", "/ui/mode", .str "public"⟩] } := by
  have h := C6_setMode_private_to_public "i" "t" .voice [("mode", .str "public")] "n"
    { State.initial "t0" with ui_mode := .str "private", app_route := .str "email" }
    (by decide) rfl (Or.inl rfl)
  rw [h]

/-- C8: `_get_next_app` and `_get_prev_app` follow the canonical registry
order restricted to the visible set, wrapping circularly; a current app
outside the visible set maps to the first (next) or last (prev) visible
element; the visible set is never empty, so the `"home"` fallback for an
empty set is unreachable; and from public mode at `home`, repeated
`nav.nextApp` commands cycle `weather, news, todos, calendar, settings,
home, weather`, skipping `email` and `finance`. -/
theorem C8_next_prev_app :
    (∀ (mode : Value) (i : Nat) (hi : i < (get_visible_apps mode).length),
        get_next_app (.str ((get_visible_apps mode).get ⟨i, hi⟩)) mode
          = (get_visible_apps mode).get
              ⟨(i + 1) % (get_visible_apps mode).length,
               Nat.mod_lt _ (Nat.lt_of_le_of_lt (Nat.zero_le i) hi)⟩ ∧
        get_prev_app (.str ((get_visible_apps mode).get ⟨i, hi⟩)) mode
          = (get_visible_apps mode).get
              ⟨(i + (get_visible_apps mode).length - 1) % (get_visible_apps mode).length,
               Nat.mod_lt _ (Nat.lt_of_le_of_lt (Nat.zero_le i) hi)⟩) ∧
    (∀ (mode cur : Value), (∀ a ∈ get_visible_apps mode, ¬(Value.str a = cur)) →
        get_next_app cur mode = (get_visible_apps mode).headD "home" ∧
        get_prev_app cur mode = (get_visible_apps mode).getLastD "home") ∧
    (∀ mode : Value, ¬(get_visible_apps mode = [])) ∧
    ((navNextStep^[1] (State.initial "t0")).app_route = .str "weather" ∧
     (navNextStep^[2] (State.initial "t0")).app_route = .str "news" ∧
     (navNextStep^[3] (State.initial "t0")).app_route = .str "todos" ∧
     (navNextStep^[4] (State.initial "t0")).app_route = .str "calendar" ∧
     (navNextStep^[5] (State.initial "t0")).app_route = .str "settings" ∧
     (navNextStep^[6] (State.initial "t0")).app_route = .str "home" ∧
     (navNextStep^[7] (State.initial "t0")).app_route = .str "weather") := by
  refine ⟨?_, ?_, get_visible_apps_ne_nil, by decide⟩
  · intro mode i hi
    have hnd : (get_visible_apps mode).Nodup := by
      rcases get_visible_apps_cases mode with h | h <;> rw [h] <;> decide
    constructor
    · unfold get_next_app
      dsimp only
      rw [pyIndex_get _ hnd i hi]
      dsimp only
      rw [List.getD_eq_getElem _ _ (Nat.mod_lt _ (Nat.lt_of_le_of_lt (Nat.zero_le i) hi))]
      rfl
    · unfold get_prev_app
      dsimp only
      rw [pyIndex_get _ hnd i hi]
      dsimp only
      rw [List.getD_eq_getElem _ _ (Nat.mod_lt _ (Nat.lt_of_le_of_lt (Nat.zero_le i) hi))]
      rfl
  · intro mode cur hno
    have hidx := pyIndex_none (get_visible_apps mode) cur hno
    constructor
    · unfold get_next_app
      dsimp only
      rw [hidx]
    · unfold get_prev_app
      dsimp only
      rw [hidx]

/-- C8, witness: an app outside the public visible set (`email`) maps to
the first and last visible elements. -/
theorem C8_witness :
    get_next_app (.str "email") (.str "public")
        = (get_visible_apps (.str "public")).headD "home" ∧
    get_prev_app (.str "email") (.str "public")
        = (get_visible_apps (.str "public")).getLastD "home" :=
  C8_next_prev_app.2.1 (.str "public") (.str "email") (by decide)

/-- C1, counterexample: a well-shaped `nav.backOrHome` command handled
while `ui.appRoute` is already `"home"` makes `handle_command` return no
Event at all (Python returns `None`), refuting "it always returns an
Event, for every action value". -/
theorem C1_always_returns_event_cex :
    handle_command ⟨"c1", "ts1", .voice, "nav.backOrHome", []⟩ "n" (State.initial "t0")
      = .ok { event := none, state := State.initial "t0", persisted := [], published := [] } := by
  decide

/-- C1 (amended): on any state whose `todos` field is a list (as every
arbiter-reachable state is), `handle_command` never raises; it returns no
Event only for `nav.backOrHome`, `voice.openApp` and `voice.nav` (the
silent fall-through branches), and every Event it does return has
`commandId = cmd.id` and `ts = cmd.ts` (which is also the ts every patch
carries). -/
theorem C1_amended_handle_event_fields :
    ∀ (cmd : Command) (now : String) (s : State) (xs : List Value),
      s.todos = .list xs →
      ∃ r, handle_command cmd now s = .ok r ∧
        (∀ e, r.event = some e → e.commandId = cmd.id ∧ e.ts = cmd.ts) ∧
        (r.event = none →
          cmd.action = "nav.backOrHome" ∨ cmd.action = "voice.openApp" ∨
          cmd.action = "voice.nav") := by
  intro cmd now s xs htodos
  obtain ⟨ci, ct, csrc, ca, cpl⟩ := cmd
  dsimp only
  unfold handle_command handleFuel
  by_cases h1 : pyStartsWith ca "add_todo" = true
  · simp only [if_pos h1, htodos]
    exact ⟨_, stepPatch_ok _ _ _ _ _ (apply_todos_append s xs _ now htodos),
      fun e he => by cases he; exact ⟨rfl, rfl⟩, fun hn => by cases hn⟩
  simp only [if_neg h1]
  by_cases h2 : ca = "toggle_mic"
  · simp only [if_pos h2]
    exact ⟨_, stepPatch_ok _ _ _ _ _ (apply_mic_enabled s _ now),
      fun e he => by cases he; exact ⟨rfl, rfl⟩, fun hn => by cases hn⟩
  simp only [if_neg h2]
  by_cases h3 : ca = "toggle_cam"
  · simp only [if_pos h3]
    exact ⟨_, stepPatch_ok _ _ _ _ _ (apply_cam_enabled s _ now),
      fun e he => by cases he; exact ⟨rfl, rfl⟩, fun hn => by cases hn⟩
  simp only [if_neg h3]
  by_cases h4 : pyStartsWith ca "set_mode" = true
  · simp only [if_pos h4]
    exact ⟨_, stepPatch_ok _ _ _ _ _ (apply_mode s _ now),
      fun e he => by cases he; exact ⟨rfl, rfl⟩, fun hn => by cases hn⟩
  simp only [if_neg h4]
  by_cases h5 : pyStartsWith ca "gesture_" = true
  · simp only [if_pos h5]
    exact ⟨_, stepPatch_ok _ _ _ _ _ (apply_last_gesture s _ now),
      fun e he => by cases he; exact ⟨rfl, rfl⟩, fun hn => by cases hn⟩
  simp only [if_neg h5]
  by_cases h6 : ca = "set_gn_armed"
  · simp only [if_pos h6]
    exact ⟨_, stepPatch_ok _ _ _ _ _ (apply_ui_gnArmed s _ now),
      fun e he => by cases he; exact ⟨rfl, rfl⟩, fun hn => by cases hn⟩
  simp only [if_neg h6]
  by_cases h7 : ca = "nav.nextApp"
  · simp only [if_pos h7]
    exact ⟨_, stepPatch_ok _ _ _ _ _ (apply_ui_appRoute s _ now),
      fun e he => by cases he; exact ⟨rfl, rfl⟩, fun hn => by cases hn⟩
  simp only [if_neg h7]
  by_cases h8 : ca = "nav.prevApp"
  · simp only [if_pos h8]
    exact ⟨_, stepPatch_ok _ _ _ _ _ (apply_ui_appRoute s _ now),
      fun e he => by cases he; exact ⟨rfl, rfl⟩, fun hn => by cases hn⟩
  simp only [if_neg h8]
  by_cases h9 : ca = "nav.openAppFocused"
  · simp only [if_pos h9]
    exact ⟨_, stepPatch_ok _ _ _ _ _ (apply_ui_focusPath s _ now),
      fun e he => by cases he; exact ⟨rfl, rfl⟩, fun hn => by cases hn⟩
  simp only [if_neg h9]
  by_cases h10 : ca = "nav.backOrHome"
  · simp only [if_pos h10]
    by_cases hr : s.app_route = .str "home"
    · simp only [if_neg (not_not_intro hr)]
      exact ⟨_, rfl, fun e he => Option.noConfusion he, fun _ => Or.inl h10⟩
    · simp only [if_pos hr]
      exact ⟨_, stepPatch_ok _ _ _ _ _ (apply_ui_appRoute s _ now),
        fun e he => by cases he; exact ⟨rfl, rfl⟩, fun hn => by cases hn⟩
  simp only [if_neg h10]
  by_cases h11 : ca = "app.navigate"
  · simp only [if_pos h11]
    exact ⟨_, rfl, fun e he => by cases he; exact ⟨rfl, rfl⟩, fun hn => by cases hn⟩
  simp only [if_neg h11]
  by_cases h12 : ca = "app.selectFocus"
  · simp only [if_pos h12]
    exact ⟨_, rfl, fun e he => by cases he; exact ⟨rfl, rfl⟩, fun hn => by cases hn⟩
  simp only [if_neg h12]
  by_cases h13 : ca = "app.quickActions"
  · simp only [if_pos h13]
    exact ⟨_, rfl, fun e he => by cases he; exact ⟨rfl, rfl⟩, fun hn => by cases hn⟩
  simp only [if_neg h13]
  by_cases h14 : ca = "voice.openApp"
  · simp only [if_pos h14]
    by_cases hg : (pyTruthy (pyGetOpt cpl "app")
        && is_app_visible (pyGetOpt cpl "app") s.ui_mode) = true
    · simp only [if_pos hg]
      exact ⟨_, stepPatch_ok _ _ _ _ _ (apply_ui_appRoute s _ now),
        fun e he => by cases he; exact ⟨rfl, rfl⟩, fun hn => by cases hn⟩
    · simp only [if_neg hg]
      exact ⟨_, rfl, fun e he => Option.noConfusion he, fun _ => Or.inr (Or.inl h14)⟩
  simp only [if_neg h14]
  by_cases h15 : ca = "voice.nav"
  · simp only [if_pos h15]
    by_cases hn1 : pyGetOpt cpl "action" = .str "next"
    · simp only [if_pos hn1, handleFuel_one_nextApp]
      exact ⟨_, stepPatch_ok _ _ _ _ _ (apply_ui_appRoute s _ now),
        fun e he => by cases he; exact ⟨rfl, rfl⟩, fun hn => by cases hn⟩
    simp only [if_neg hn1]
    by_cases hn2 : pyGetOpt cpl "action" = .str "prev" ∨ pyGetOpt cpl "action" = .str "previous"
    · simp only [if_pos hn2, handleFuel_one_prevApp]
      exact ⟨_, stepPatch_ok _ _ _ _ _ (apply_ui_appRoute s _ now),
        fun e he => by cases he; exact ⟨rfl, rfl⟩, fun hn => by cases hn⟩
    simp only [if_neg hn2]
    by_cases hn3 : pyGetOpt cpl "action" = .str "back"
    · simp only [if_pos hn3, handleFuel_one_backOrHome]
      by_cases hr : s.app_route = .str "home"
      · simp only [if_neg (not_not_intro hr)]
        exact ⟨_, rfl, fun e he => Option.noConfusion he, fun _ => Or.inr (Or.inr h15)⟩
      · simp only [if_pos hr]
        exact ⟨_, stepPatch_ok _ _ _ _ _ (apply_ui_appRoute s _ now),
          fun e he => by cases he; exact ⟨rfl, rfl⟩, fun hn => by cases hn⟩
    simp only [if_neg hn3]
    by_cases hn4 : pyGetOpt cpl "action" = .str "select"
    · simp only [if_pos hn4, handleFuel_one_selectFocus]
      exact ⟨_, rfl, fun e he => by cases he; exact ⟨rfl, rfl⟩, fun hn => by cases hn⟩
    · simp only [if_neg hn4]
      exact ⟨_, rfl, fun e he => Option.noConfusion he, fun _ => Or.inr (Or.inr h15)⟩
  simp only [if_neg h15]
  by_cases h16 : ca = "system.toggleDebug"
  · simp only [if_pos h16]
    exact ⟨_, stepPatch_ok _ _ _ _ _ (apply_ui_debug_enabled s _ now),
      fun e he => by cases he; exact ⟨rfl, rfl⟩, fun hn => by cases hn⟩
  simp only [if_neg h16]
  by_cases h17 : ca = "system.setMode"
  · simp only [if_pos h17]
    by_cases hrej : pyGetOpt cpl "mode" = .str "private" ∧
        ¬(pyGetOpt cpl "code" = .str "unlock")
    · simp only [if_pos hrej]
      exact ⟨_, rfl, fun e he => by cases he; exact ⟨rfl, rfl⟩, fun hn => by cases hn⟩
    simp only [if_neg hrej]
    by_cases hgo : s.ui_mode = .str "private" ∧ pyGetOpt cpl "mode" = .str "public" ∧
        (s.app_route = .str "email" ∨ s.app_route = .str "finance")
    · simp only [if_pos hgo, apply_ui_mode]
      exact ⟨_, rfl, fun e he => by cases he; exact ⟨rfl, rfl⟩, fun hn => by cases hn⟩
    · simp only [if_neg hgo]
      exact ⟨_, stepPatch_ok _ _ _ _ _ (apply_ui_mode s _ now),
        fun e he => by cases he; exact ⟨rfl, rfl⟩, fun hn => by cases hn⟩
  simp only [if_neg h17]
  exact ⟨_, rfl, fun e he => by cases he; exact ⟨rfl, rfl⟩, fun hn => by cases hn⟩

/-- C1, witness: the amended no-raise statement at a concrete
`toggle_mic` command on the default state. -/
theorem C1_witness :
    (handle_command ⟨"c", "t", .gesture, "toggle_mic", []⟩ "n" (State.initial "t0")).isOk
      = true := by
  obtain ⟨r, hr, _, _⟩ := C1_amended_handle_event_fields
    ⟨"c", "t", .gesture, "toggle_mic", []⟩ "n" (State.initial "t0") [] rfl
  rw [hr]
  rfl

/-- C2, counterexample: `system.setMode` accepts arbitrary mode strings
without a code. From the defaults, setting mode `"x"` (making every app
visible), opening `email`, then setting mode `"public"` leaves
`ui.appRoute = "email"` even though `email` is filtered from the public
visible set — the home-first redirect only fires when the prior mode is
exactly `"private"`. -/
theorem C2_invariant_cex :
    (runCommands
        [⟨"1", "ta", .system, "system.setMode", [("mode", .str "x")]⟩,
         ⟨"2", "tb", .voice, "voice.openApp", [("app", .str "email")]⟩,
         ⟨"3", "tc", .system, "system.setMode", [("mode", .str "public")]⟩]
        "n" (State.initial "t0")).map
      (fun s => (s.ui_mode, s.app_route, appRouteVisibleB s))
      = .ok (.str "public", .str "email", false) := by
  decide

/-- C2 (amended): provided every `system.setMode` command in the
sequence asks for one of the two documented modes (`"public"` or
`"private"`), every state reachable from the defaults through
`handle_command` keeps `ui.appRoute` inside the visible-app set of the
current `ui.mode`; the home-first redirect of `system.setMode` maintains
this across private-to-public transitions. -/
theorem C2_amended_appRoute_visible :
    ∀ (cmds : List Command) (now t0 : String) (s2 : State),
      (∀ c ∈ cmds, goodModeCmd c) →
      runCommands cmds now (State.initial t0) = .ok s2 →
      appRouteVisibleB s2 = true := by
  intro cmds now t0 s2 hgood h
  have h0 : StateInv (State.initial t0) :=
    ⟨Or.inl rfl, appRouteVisibleB_of_mem _ "home" (home_mem_visible _) rfl⟩
  exact (runCommands_inv cmds now (State.initial t0) s2 h0 hgood h).2

/-- C2, witness: the invariant at the end of a concrete good-mode
sequence (enter private with the right code, open email, go public),
which lands on public/home. -/
theorem C2_witness :
    appRouteVisibleB
        { State.initial "t0" with ui_mode := .str "public", app_route := .str "home" }
      = true :=
  C2_amended_appRoute_visible
    [⟨"1", "ta", .system, "system.setMode", [("mode", .str "private"), ("code", .str "unlock")]⟩,
     ⟨"2", "tb", .voice, "voice.openApp", [("app", .str "email")]⟩,
     ⟨"3", "tc", .system, "system.setMode", [("mode", .str "public")]⟩]
    "n" "t0"
    { State.initial "t0" with ui_mode := .str "public", app_route := .str "home" }
    (by decide) (by decide)

/-- C3, counterexample: the `/ui/mode` patch assigns successfully
(`ui_mode` becomes `"private"`), yet `last_updated` keeps its prior value
`"t0"` instead of the current wall clock `"t1"` — the UI branch of
`apply_patch` returns before the `last_updated` line. -/
theorem C3_last_updated_cex :
    (State.initial "t0").apply_patch "/ui/mode" (.str "private") "t1"
      = .ok { State.initial "t0" with ui_mode := .str "private" } ∧
    ({ State.initial "t0" with ui_mode := .str "private" } : State).last_updated = .str "t0" ∧
    ¬((Value.str "t0") = .str "t1") := by
  decide

/-- C3 (amended): a successful `apply_patch` sets `last_updated` to the
current wall clock exactly when the path is a legacy (non-`/ui/...`)
path; every `/ui/...` patch, successful assigns included, leaves
`last_updated` unchanged. -/
theorem C3_amended_last_updated :
    ∀ (path : String) (v : Value) (now : String) (s s2 : State),
      s.apply_patch path v now = .ok s2 →
      (if isUiPath path then s2.last_updated = s.last_updated
       else s2.last_updated = .str now) := by
  intro path v now s s2 h
  unfold State.apply_patch at h
  dsimp only at h
  by_cases hui : 2 ≤ (pathParts path).length ∧ (pathParts path).headD [] = chars "ui"
  · rw [if_pos (by unfold isUiPath; exact decide_eq_true hui)]
    rw [if_pos hui] at h
    split at h
    · cases h; rfl
    · split at h
      · cases h; rfl
      · split at h
        · cases h; rfl
        · split at h
          · cases h; rfl
          · split at h
            · split at h
              · cases h; rfl
              · cases h; rfl
            · split at h
              · split at h
                · cases h
                · split at h
                  · cases h
                  · cases h; rfl
                · cases h; rfl
              · cases h; rfl
  · rw [if_neg (fun hd : isUiPath path = true => hui (of_decide_eq_true hd))]
    rw [if_neg hui] at h
    obtain ⟨y, _, hx⟩ := except_map_ok h
    rw [hx]

/-- C3, witness: the legacy `/mode` patch on the default state stamps
`last_updated` with the patch-time clock value. -/
theorem C3_witness :
    ({ State.initial "t0" with mode := .null, last_updated := .str "t1" } : State).last_updated
      = .str "t1" := by
  have h := C3_amended_last_updated "/mode" .null "t1" (State.initial "t0")
    { State.initial "t0" with mode := .null, last_updated := .str "t1" } (by decide)
  rw [if_neg (by decide)] at h

/-- C4, counterexample: the unrecognised path `/bogus` is absorbed
without an exception, but it does not leave the entire state unchanged:
`last_updated` is still bumped to the current clock, because the legacy
branch stamps it unconditionally.  Nor is every unmatched path even
exception-free: the path `/__class__` reaches `setattr(self, "__class__", 5)`,
which raises `TypeError`. -/
theorem C4_noop_cex :
    (State.initial "t0").apply_patch "/bogus" .null "t1"
      = .ok { State.initial "t0" with last_updated := .str "t1" } ∧
    ¬({ State.initial "t0" with last_updated := .str "t1" } : State) = State.initial "t0" ∧
    (State.initial "t0").apply_patch "/__class__" (.int 5) "t1"
      = .error "TypeError: __class__ must be set to a class" := by
  decide

/-- C4 (amended): over paths of plain segments (ASCII, no `__...`
attribute, no method name — see `plainSeg`), a path matching no
recognised form (relative to a state whose `hud` field holds a dict, as
it does unless a `/hud` patch replaced it) is absorbed without an
exception and changes no field — except that a legacy (non-`/ui/...`)
unrecognised path still stamps `last_updated` with the current clock,
because the legacy branch bumps it unconditionally.  Outside the plain
region absorption fails: `/__class__` raises `TypeError` and a
non-decimal digit index raises `ValueError`. -/
theorem C4_amended_unrecognized_noop :
    ∀ (path : String) (v : Value) (now : String) (s : State) (kvs : List (String × Value)),
      s.hud = .obj kvs → plainParts path = true → unrecognizedPath path s = true →
      s.apply_patch path v now
        = .ok (if isUiPath path then s else { s with last_updated := .str now }) := by
  intro path v now s kvs hhud hplain hunrec
  unfold State.apply_patch
  unfold unrecognizedPath at hunrec
  dsimp only at hunrec ⊢
  by_cases hui : 2 ≤ (pathParts path).length ∧ (pathParts path).headD [] = chars "ui"
  · rw [if_pos (show isUiPath path = true from decide_eq_true hui)]
    rw [if_pos hui] at hunrec ⊢
    simp only [Bool.and_eq_true, Bool.not_eq_true'] at hunrec
    obtain ⟨⟨⟨⟨⟨hA, hB⟩, hC⟩, hD⟩, hE⟩, hF⟩ := hunrec
    rw [beq_eq_false_iff_ne] at hA hB hC hD
    rw [if_neg hA, if_neg hB, if_neg hC, if_neg hD]
    by_cases hdbg : (pathParts path).getD 1 [] = chars "debug" ∧ 3 ≤ (pathParts path).length
    · rw [if_pos hdbg]
      have hp2 : ¬((pathParts path).getD 2 [] = chars "enabled") := by
        intro hp2
        rw [hdbg.1] at hE
        simp [decide_eq_true hdbg.2] at hE
        exact hE (by simpa using hp2)
      rw [if_neg hp2]
    · rw [if_neg hdbg]
      by_cases hhd : (pathParts path).getD 1 [] = chars "hud" ∧ 3 ≤ (pathParts path).length
      · rw [if_pos hhd]
        have hkey : hudKeyPresent s ((pathParts path).getD 2 []) = false := by
          rw [hhd.1] at hF
          rw [decide_eq_true hhd.2] at hF
          simpa using hF
        unfold hudKeyPresent at hkey
        rw [hhud] at hkey
        dsimp only at hkey
        rw [hhud]
        simp only [pyInStr]
        rw [hkey]
      · rw [if_neg hhd]
  · rw [if_neg (fun hd : isUiPath path = true => hui (of_decide_eq_true hd))]
    rw [if_neg hui] at hunrec ⊢
    by_cases h1 : (pathParts path).length = 1
    · rw [if_pos h1] at hunrec ⊢
      rw [Option.isNone_iff_eq_none] at hunrec
      have hha : ¬(State.hasAttrP s ((pathParts path).headD []) = true) := by
        rw [hasAttrP_of_plain s _ (plainParts_head path hplain), hunrec]
        decide
      rw [if_neg hha]
      rfl
    · rw [if_neg h1] at hunrec ⊢
      by_cases h2 : (pathParts path).length = 2 ∧ (pathParts path).getD 1 [] = chars "+"
      · rw [if_pos h2] at hunrec ⊢
        cases hf : s.getFieldP ((pathParts path).headD []) with
        | none => rfl
        | some w =>
            rw [hf] at hunrec
            cases w with
            | list xs => simp at hunrec
            | null => rfl
            | bool b => rfl
            | int n => rfl
            | str t => rfl
            | obj kvs2 => rfl
      · rw [if_neg h2] at hunrec ⊢
        by_cases h3 : (pathParts path).length = 2
        · rw [if_pos h3] at hunrec ⊢
          cases hf : s.getFieldP ((pathParts path).headD []) with
          | none => rfl
          | some w =>
              rw [hf] at hunrec
              cases w with
              | list xs =>
                  dsimp only
                  simp only [Bool.not_eq_true', Bool.and_eq_true] at hunrec
                  by_cases hd : pyIsDigit ((pathParts path).getD 1 []) = true
                  · rw [if_pos hd]
                    rw [pyInt_ascii _ (plainSeg_ascii _
                      (plainParts_getD path 1 (by rw [h3]; decide) hplain)) hd]
                    dsimp only
                    have hrange : ¬(digitsToNat ((pathParts path).getD 1 []) < xs.length) := by
                      intro hlt
                      simp only [Bool.and_eq_false_iff] at hunrec
                      rcases hunrec with hbad | hbad
                      · rw [hd] at hbad; cases hbad
                      · rw [decide_eq_true hlt] at hbad; cases hbad
                    rw [if_neg hrange]
                    rfl
                  · rw [if_neg hd]
                    rfl
              | obj kvs2 => simp at hunrec
              | null => rfl
              | bool b => rfl
              | int n => rfl
              | str t => rfl
        · rw [if_neg h3]
          rfl

/-- C4, witness: the amended no-op behaviour at three concrete
unrecognised paths — a legacy unknown field, an out-of-range todo index,
and an unknown HUD key — on the default state. -/
theorem C4_witness :
    (State.initial "t0").apply_patch "/bogus" .null "t1"
      = .ok { State.initial "t0" with last_updated := .str "t1" } ∧
    (State.initial "t0").apply_patch "/todos/7" (.int 1) "t1"
      = .ok { State.initial "t0" with last_updated := .str "t1" } ∧
    (State.initial "t0").apply_patch "/ui/hud/zzz" (.bool true) "t1"
      = .ok (State.initial "t0") := by
  refine ⟨?_, ?_, ?_⟩
  · have h := C4_amended_unrecognized_noop "/bogus" .null "t1" (State.initial "t0")
      [("micOn", .bool false), ("camOn", .bool false),
       ("wsConnected", .bool false), ("wake", .bool false)] rfl (by decide) (by decide)
    rwa [if_neg (by decide)] at h
  · have h := C4_amended_unrecognized_noop "/todos/7" (.int 1) "t1" (State.initial "t0")
      [("micOn", .bool false), ("camOn", .bool false),
       ("wsConnected", .bool false), ("wake", .bool false)] rfl (by decide) (by decide)
    rwa [if_neg (by decide)] at h
  · have h := C4_amended_unrecognized_noop "/ui/hud/zzz" (.bool true) "t1" (State.initial "t0")
      [("micOn", .bool false), ("camOn", .bool false),
       ("wsConnected", .bool false), ("wake", .bool false)] rfl (by decide) (by decide)
    rwa [if_pos (by decide)] at h

/-- C5, counterexample: two runs of the same `/mode` patch on equal prior
states disagree on `last_updated` when they observe different wall-clock
readings, so "all fields equal, including last_updated" fails. -/
theorem C5_determinism_cex :
    ¬((State.initial "t0").apply_patch "/mode" (.str "voice") "t1"
        = (State.initial "t0").apply_patch "/mode" (.str "voice") "t2") := by
  decide

/-- C5 (amended): `apply_patch` is deterministic given the wall-clock
reading — equal prior states and equal clock readings give equal results —
and the clock reading influences nothing but `last_updated`: results for
different readings agree after blanking that field. -/
theorem C5_amended_deterministic :
    ∀ (path : String) (v : Value) (now n1 n2 : String) (s s' : State),
      (s = s' → s.apply_patch path v now = s'.apply_patch path v now) ∧
      (s.apply_patch path v n1).map stripLastUpdated
        = (s.apply_patch path v n2).map stripLastUpdated := by
  intro path v now n1 n2 s s'
  refine ⟨fun h => by rw [h], ?_⟩
  unfold State.apply_patch
  dsimp only
  by_cases hui : 2 ≤ (pathParts path).length ∧ (pathParts path).headD [] = chars "ui"
  · simp only [if_pos hui]
  · simp only [if_neg hui]
    rw [except_map_map, except_map_map]
    have hfe : (stripLastUpdated ∘ fun s1 : State => { s1 with last_updated := Value.str n1 })
        = (stripLastUpdated ∘ fun s1 : State => { s1 with last_updated := Value.str n2 }) := by
      funext x
      rfl
    rw [hfe]

/-- C5, witness: the two parts of the amended claim at the `/mode` patch
on the default state. -/
theorem C5_witness :
    (State.initial "t0").apply_patch "/mode" (.bool true) "tX"
        = (State.initial "t0").apply_patch "/mode" (.bool true) "tX" ∧
    ((State.initial "t0").apply_patch "/mode" (.bool true) "t1").map stripLastUpdated
        = ((State.initial "t0").apply_patch "/mode" (.bool true) "t2").map stripLastUpdated :=
  ⟨(C5_amended_deterministic "/mode" (.bool true) "tX" "t1" "t2"
      (State.initial "t0") (State.initial "t0")).1 rfl,
   (C5_amended_deterministic "/mode" (.bool true) "tX" "t1" "t2"
      (State.initial "t0") (State.initial "t0")).2⟩

/-- C10 (amended): `apply_patch` never raises on a path of plain
segments (ASCII, no `__...` attribute, no method name — see `plainSeg`)
when the state's `hud` field holds a dict (true initially and breakable
only by a `/hud` patch); in particular a non-list `/ui/focusPath` value
is coerced to the empty list, an out-of-range decimal `/todos/<index>`
patch and a non-digit index on a list field only stamp `last_updated`,
and an unknown `/ui/hud/<key>` patch is a complete no-op.  Outside
those provisos it does raise: `ValueError` on a non-decimal digit
index, `TypeError` on `/__class__` and on `/ui/hud/<key>` once `hud` is
no dict. -/
theorem C10_amended_no_raise :
    (∀ (path : String) (v : Value) (now : String) (s : State) (kvs : List (String × Value)),
        s.hud = .obj kvs → plainParts path = true →
        ∃ s2, s.apply_patch path v now = .ok s2) ∧
    (∀ (v : Value) (now : String) (s : State), v.isList = false →
        s.apply_patch "/ui/focusPath" v now = .ok { s with focus_path := .list [] }) ∧
    (∀ (path : String) (v : Value) (now : String) (s : State) (xs : List Value) (p1 : List Char),
        pathParts path = [chars "todos", p1] → s.todos = .list xs → asciiSeg p1 = true →
        pyIsDigit p1 = true → xs.length ≤ digitsToNat p1 →
        s.apply_patch path v now = .ok { s with last_updated := .str now }) ∧
    (∀ (path : String) (v : Value) (now : String) (s : State) (xs : List Value)
        (p0 p1 : List Char),
        pathParts path = [p0, p1] → s.getFieldP p0 = some (.list xs) →
        pyIsDigit p1 = false → ¬(p1 = chars "+") →
        s.apply_patch path v now = .ok { s with last_updated := .str now }) ∧
    (∀ (path : String) (v : Value) (now : String) (s : State) (kvs : List (String × Value))
        (key : List Char),
        pathParts path = [chars "ui", chars "hud", key] → s.hud = .obj kvs →
        kvs.any (fun kv => kv.1.data = key) = false →
        s.apply_patch path v now = .ok s) := by
  refine ⟨?_, ?_, ?_, ?_, ?_⟩
  · intro path v now s kvs hhud hplain
    unfold State.apply_patch
    dsimp only
    by_cases hui : 2 ≤ (pathParts path).length ∧ (pathParts path).headD [] = chars "ui"
    · rw [if_pos hui]
      split_ifs <;> try exact ⟨_, rfl⟩
      rw [hhud]
      simp only [pyInStr]
      cases hb : kvs.any (fun kv => kv.1.data = (pathParts path).getD 2 []) with
      | true =>
          dsimp only
          simp only [pySetItem]
          rw [if_pos hb]
          exact ⟨_, rfl⟩
      | false => exact ⟨s, rfl⟩
    · rw [if_neg hui]
      by_cases h1 : (pathParts path).length = 1
      · rw [if_pos h1]
        by_cases hha : State.hasAttrP s ((pathParts path).headD []) = true
        · rw [if_pos hha]
          rw [pySetAttr_of_plain s _ v (plainParts_head path hplain)]
          exact ⟨_, rfl⟩
        · rw [if_neg hha]
          exact ⟨_, rfl⟩
      · rw [if_neg h1]
        by_cases h2 : (pathParts path).length = 2 ∧ (pathParts path).getD 1 [] = chars "+"
        · rw [if_pos h2]
          exact ⟨_, rfl⟩
        · rw [if_neg h2]
          by_cases h3 : (pathParts path).length = 2
          · rw [if_pos h3]
            cases hf : s.getFieldP ((pathParts path).headD []) with
            | none => exact ⟨_, rfl⟩
            | some w =>
                cases w with
                | list xs =>
                    dsimp only
                    by_cases hd : pyIsDigit ((pathParts path).getD 1 []) = true
                    · rw [if_pos hd]
                      rw [pyInt_ascii _ (plainSeg_ascii _
                        (plainParts_getD path 1 (by rw [h3]; decide) hplain)) hd]
                      dsimp only
                      exact ⟨_, rfl⟩
                    · rw [if_neg hd]
                      exact ⟨_, rfl⟩
                | obj kvs2 => exact ⟨_, rfl⟩
                | null => exact ⟨_, rfl⟩
                | bool b => exact ⟨_, rfl⟩
                | int n => exact ⟨_, rfl⟩
                | str t => exact ⟨_, rfl⟩
          · rw [if_neg h3]
            exact ⟨_, rfl⟩
  · intro v now s hv
    rw [apply_ui_focusPath]
    rw [if_neg (by simp [hv])]
  · intro path v now s xs p1 hparts htodos hascii hdig hge
    have hplus : ¬(p1 = chars "+") := by
      intro he
      rw [he] at hdig
      cases hdig
    unfold State.apply_patch
    dsimp only
    rw [hparts]
    rw [show (([chars "todos", p1] : List (List Char)).length) = 2 from rfl]
    rw [show (([chars "todos", p1] : List (List Char)).headD []) = chars "todos" from rfl]
    rw [show (([chars "todos", p1] : List (List Char)).getD 1 []) = p1 from rfl]
    rw [if_neg (by decide)]
    rw [if_neg (by decide)]
    rw [if_neg (fun hc => hplus hc.2)]
    rw [if_pos (by decide)]
    rw [show State.getFieldP s (chars "todos") = some s.todos from rfl]
    rw [htodos]
    dsimp only
    rw [if_pos hdig]
    rw [pyInt_ascii p1 hascii hdig]
    dsimp only
    rw [if_neg (Nat.not_lt.mpr hge)]
    dsimp only [Except.map]
    rw [htodos]
  · intro path v now s xs p0 p1 hparts hf hdig hplus
    by_cases hp0 : p0 = chars "ui"
    · exfalso
      rw [hp0] at hf
      have h0 : s.getFieldP (chars "ui") = none := rfl
      rw [h0] at hf
      cases hf
    · unfold State.apply_patch
      dsimp only
      rw [hparts]
      rw [show (([p0, p1] : List (List Char)).length) = 2 from rfl]
      rw [show (([p0, p1] : List (List Char)).headD []) = p0 from rfl]
      rw [show (([p0, p1] : List (List Char)).getD 1 []) = p1 from rfl]
      rw [if_neg (fun hc => hp0 hc.2)]
      rw [if_neg (by decide)]
      rw [if_neg (fun hc => hplus hc.2)]
      rw [if_pos (by decide)]
      rw [hf]
      dsimp only
      rw [if_neg (by simp [hdig])]
      rfl
  · intro path v now s kvs key hparts hhud hany
    unfold State.apply_patch
    dsimp only
    rw [hparts]
    rw [show (([chars "ui", chars "hud", key] : List (List Char)).length) = 3 from rfl]
    rw [show (([chars "ui", chars "hud", key] : List (List Char)).headD [])
          = chars "ui" from rfl]
    rw [show (([chars "ui", chars "hud", key] : List (List Char)).getD 1 [])
          = chars "hud" from rfl]
    rw [show (([chars "ui", chars "hud", key] : List (List Char)).getD 2 []) = key from rfl]
    rw [if_pos (by decide)]
    rw [if_neg (by decide), if_neg (by decide), if_neg (by decide), if_neg (by decide)]
    rw [if_neg (by decide)]
    rw [if_pos (by decide)]
    rw [hhud]
    simp only [pyInStr]
    rw [hany]

/-- C10, witness: the amended totality and absorption behaviour at
concrete inputs on the default state. -/
theorem C10_witness :
    ((State.initial "t0").apply_patch "/x/y/z" .null "t1").isOk = true ∧
    (State.initial "t0").apply_patch "/ui/focusPath" (.int 3) "t1"
      = .ok { State.initial "t0" with focus_path := .list [] } ∧
    (State.initial "t0").apply_patch "/todos/9" (.int 1) "t1"
      = .ok { State.initial "t0" with last_updated := .str "t1" } ∧
    (State.initial "t0").apply_patch "/todos/nope" (.int 1) "t1"
      = .ok { State.initial "t0" with last_updated := .str "t1" } ∧
    (State.initial "t0").apply_patch "/ui/hud/zz" (.bool true) "t1"
      = .ok (State.initial "t0") := by
  refine ⟨?_, ?_, ?_, ?_, ?_⟩
  · obtain ⟨s2, h⟩ := C10_amended_no_raise.1 "/x/y/z" .null "t1" (State.initial "t0")
      [("micOn", .bool false), ("camOn", .bool false),
       ("wsConnected", .bool false), ("wake", .bool false)] rfl (by decide)
    rw [h]
    rfl
  · exact C10_amended_no_raise.2.1 (.int 3) "t1" (State.initial "t0") rfl
  · exact C10_amended_no_raise.2.2.1 "/todos/9" (.int 1) "t1" (State.initial "t0") []
      (chars "9") (by decide) rfl (by decide) (by decide) (by decide)
  · exact C10_amended_no_raise.2.2.2.1 "/todos/nope" (.int 1) "t1" (State.initial "t0") []
      (chars "todos") (chars "nope") (by decide) rfl (by decide) (by decide)
  · exact C10_amended_no_raise.2.2.2.2 "/ui/hud/zz" (.bool true) "t1" (State.initial "t0")
      [("micOn", .bool false), ("camOn", .bool false),
       ("wsConnected", .bool false), ("wake", .bool false)]
      (chars "zz") (by decide) rfl (by decide)

/-- C9, counterexample: even when a snapshot row exists (here recording a
state whose `mode` is `"voice"`), the startup state is the defaults, not
the recorded state — `lifespan` never reads the snapshots table back. -/
theorem C9_snapshot_restore_cex :
    ¬(startupState (some ⟨"t5", { State.initial "t5" with mode := .str "voice" }⟩) "t0"
        = { State.initial "t5" with mode := .str "voice" }) := by
  decide

/-- C9 (amended): at process startup the UIState always equals the
documented defaults, whatever the latest snapshot row holds; snapshots
are written but never read back by the control plane. -/
theorem C9_amended_startup_defaults :
    ∀ (snap : Option SnapshotRow) (now : String), startupState snap now = State.initial now :=
  fun _ _ => rfl

/-- C10, counterexample: `apply_patch` raises even on the default state:
the superscript index segment in `/todos/²` passes `str.isdigit()` but
`int()` rejects it with `ValueError`.  It is also not total on states it
can itself produce: a `/hud` patch may replace the `hud` dict with the
integer 5, after which a `/ui/hud/micOn` patch raises `TypeError` at
`parts[2] in self.hud`. -/
theorem C10_total_cex :
    (State.initial "t0").apply_patch "/todos/²" (.int 1) "t1"
      = .error "ValueError: invalid literal for int() with base 10" ∧
    (State.initial "t0").apply_patch "/hud" (.int 5) "t1"
      = .ok { State.initial "t0" with hud := .int 5, last_updated := .str "t1" } ∧
    ({ State.initial "t0" with hud := .int 5, last_updated := .str "t1" } : State).apply_patch
        "/ui/hud/micOn" (.bool true) "t2"
      = .error "TypeError: argument is not iterable" := by
  decide

end Mira
